import Mathlib

/-!
Verification development for the "world" simulation engine.

The engine advances a small procedural world (a planet, a sun orbiting it,
clouds that cluster and rain, rain particles that fall) by an elapsed-time
delta.  The embedding below translates the source files vectorMath.tsx,
geometry.tsx, world.tsx and tickWorld.tsx into Lean definitions:

* JavaScript numbers are modelled as real numbers; the JS remainder
  operator is modelled by jsMod (truncated division remainder).
* The mutable object heap is modelled as a function from natural-number
  object identifiers to object records; in-place mutation becomes
  Function.update.  An Orbit stores the identifier of its target.
* Math.random() is modelled by an explicit stream rand : Nat -> Real
  together with a running index; every draw of the source consumes one
  stream element, in source order.
* Code paths that throw (shape-variant mismatches) return Option.none.
* The wall-clock bookkeeping of tickWorld (lastTick, Date.now) is
  externalized: the elapsed world time is the dt parameter, as in the
  design spec, section 4.3.
-/

noncomputable section

namespace WorldSim

noncomputable instance (priority := low) instDecidableAll (p : Prop) : Decidable p :=
  Classical.propDecidable p

/-- A pair of reals, source type Vector2d. -/
abbrev Vector2d : Type := ℝ × ℝ

namespace vectorMath

/-- Source vectorMath.add. -/
def add (a b : Vector2d) : Vector2d := (a.1 + b.1, a.2 + b.2)

/-- Source vectorMath.rotate: 2D rotation by an angle. -/
def rotate (v : Vector2d) (angle : ℝ) : Vector2d :=
  (v.1 * Real.cos angle - v.2 * Real.sin angle,
   v.1 * Real.sin angle + v.2 * Real.cos angle)

/-- Source vectorMath.subtract. -/
def subtract (a b : Vector2d) : Vector2d := (a.1 - b.1, a.2 - b.2)

/-- Source vectorMath.magnitude: Euclidean norm. -/
def magnitude (a : Vector2d) : ℝ := Real.sqrt (a.1 ^ 2 + a.2 ^ 2)

/-- Source vectorMath.divide (componentwise division by a scalar). -/
def divide (a : Vector2d) (b : ℝ) : Vector2d := (a.1 / b, a.2 / b)

/-- Source vectorMath.multiply (componentwise multiplication by a scalar). -/
def multiply (a : Vector2d) (b : ℝ) : Vector2d := (a.1 * b, a.2 * b)

/-- Source vectorMath.unitVector. -/
def unitVector (a : Vector2d) : Vector2d := divide a (magnitude a)

/-- Source vectorMath.clipMagnitude. -/
def clipMagnitude (a : Vector2d) (maxMagnitude : ℝ) : Vector2d :=
  if magnitude a > maxMagnitude then multiply (unitVector a) maxMagnitude else a

end vectorMath

/-- Truncation toward zero, as used by the JS remainder operator. -/
def jsTrunc (x : ℝ) : ℤ := if 0 ≤ x then ⌊x⌋ else ⌈x⌉

/-- The JS remainder operator a % b for finite operands. -/
def jsMod (a b : ℝ) : ℝ := a - b * jsTrunc (a / b)

/-- Source geometry.tsx circleHelpers.calcRotationalPoint. -/
def calcRotationalPoint (radius t : ℝ) : Vector2d :=
  (radius * Real.cos t, radius * Real.sin t)

/-- Source geometry.tsx ellipseHelpers.calcRotationalPoint. -/
def ellipseCalcRotationalPoint (a b t : ℝ) : Vector2d :=
  (a * Real.cos t, b * Real.sin t)

/-- Source geometry.tsx circleHelpers.convertRotationalVelocityToEuclideanVelocity:
first-order finite-difference approximation of the tangential velocity. -/
def convertRotationalVelocityToEuclideanVelocity
    (radius rotation rotationalVelocity : ℝ) : Vector2d :=
  vectorMath.subtract
    (calcRotationalPoint radius (rotation + rotationalVelocity))
    (calcRotationalPoint radius rotation)

/-- Source world.tsx type Shape = EllipseShape | number, a tagged variant:
a scalar radius (circle) or a pair of semi-axes (ellipse). -/
inductive Shape : Type
  | circle (radius : ℝ)
  | ellipse (a b : ℝ)

/-- Source world.tsx Cloud state field, floating or raining. -/
inductive CloudState : Type
  | floating
  | raining
deriving DecidableEq

/-- Source world.tsx interface Orbit.  The target is the identifier of the
target object in the heap (a borrowed reference in the source). -/
structure Orbit : Type where
  rotation : ℝ
  rotationalVelocity : ℝ
  target : Nat
  shape : Shape

/-- Heap object: the source CelestialObject together with the extra fields
of the Cloud extension (mass, state, friends).  JS objects are uniform heap
values; for the sun and the planet the cloud fields are simply unused. -/
structure Obj : Type where
  location : Vector2d
  rotation : ℝ
  rotationalVelocity : ℝ
  shape : Shape
  orbit : Option Orbit
  mass : ℝ
  state : CloudState
  friends : Finset Nat

/-- Reading cloud.orbit where the source static type guarantees an orbit is
present (type Cloud has a non-optional orbit).  On a missing orbit the
source would raise a TypeError; here a default orbit is returned, and every
theorem world keeps orbits on all clouds. -/
def orbitOf (o : Obj) : Orbit := o.orbit.getD ⟨0, 0, 0, Shape.circle 0⟩

/-- In-place mutation of one heap object. -/
def setObj (store : Nat → Obj) (i : Nat) (o : Obj) : Nat → Obj :=
  Function.update store i o

/-- Source world.tsx Rain. -/
structure Rain : Type where
  location : Vector2d
  velocity : Vector2d

/-- Source world.tsx PlantPart. -/
inductive PlantPart : Type
  | mk (extent : Vector2d × Vector2d) (children : List PlantPart) (depth : Nat)

/-- Source world.tsx Plant. -/
structure Plant : Type where
  rotation : ℝ
  trunk : PlantPart

/-- The aggregate world state (source world.tsx WorldState), with the heap
made explicit.  water.clouds is the list of cloud identifiers, nextId is
the next fresh heap identifier used when a cloud is spawned. -/
structure World : Type where
  store : Nat → Obj
  sunId : Nat
  planetId : Nat
  clouds : List Nat
  rain : List Rain
  ground : ℝ
  plants : List Plant
  nextId : Nat

/-- Orbit-path point for either Shape variant (tickWorld.tsx lines 249-252). -/
def orbitPoint : Shape → ℝ → Vector2d
  | Shape.circle r, t => calcRotationalPoint r t
  | Shape.ellipse a b, t => ellipseCalcRotationalPoint a b t

/-- One iteration of the kinematics loop of tickCelestialObjects: advance
and wrap the spin rotation; with an orbit, advance and wrap the orbit
rotation and recompute the location from the orbit point plus the current
location of the target. -/
def tickCelestial (store : Nat → Obj) (i : Nat) (dt : ℝ) : Nat → Obj :=
  let o := store i
  let rot := jsMod (o.rotation + o.rotationalVelocity * dt) (Real.pi * 2)
  match o.orbit with
  | none => setObj store i { o with rotation := rot }
  | some orb =>
    let orbRot := jsMod (orb.rotation + orb.rotationalVelocity * dt) (Real.pi * 2)
    let newLocationRelativeToTarget := orbitPoint orb.shape orbRot
    setObj store i
      { o with
        rotation := rot
        orbit := some { orb with rotation := orbRot }
        location := vectorMath.add newLocationRelativeToTarget (store orb.target).location }

/-- Source tickCelestialObjects: process the given objects in list order. -/
def tickCelestialObjects (store : Nat → Obj) (order : List Nat) (dt : ℝ) : Nat → Obj :=
  order.foldl (fun s i => tickCelestial s i dt) store

/-- Source constant gravity = 0.1. -/
def gravity : ℝ := 0.1

/-- Source constant maxRainVelocity = 0.1. -/
def maxRainVelocity : ℝ := 0.1

/-- Source constant rainThreshold = 30. -/
def rainThreshold : ℝ := 30

/-- Source constant cloudRangeCount = 10. -/
def cloudRangeCount : Nat := 10

/-- The comparison distance > planet.shape of tickRain.  The planet shape
is a scalar radius; on an ellipse pair the JS comparison of a number with a
two-element array coerces to NaN and is false. -/
def numGtShape (x : ℝ) : Shape → Prop
  | Shape.circle r => x > r
  | Shape.ellipse _ _ => False

/-- Body of the rain loop of tickRain: accelerate toward the planet
center, clip the speed, integrate the position. -/
def tickRainOne (planet : Obj) (dt : ℝ) (r : Rain) : Rain :=
  let centerOfEarthDirection :=
    vectorMath.unitVector (vectorMath.subtract planet.location r.location)
  let changeInVelocity := vectorMath.multiply centerOfEarthDirection (gravity * dt)
  let v := vectorMath.clipMagnitude (vectorMath.add r.velocity changeInVelocity) maxRainVelocity
  { location := vectorMath.add r.location (vectorMath.multiply v dt), velocity := v }

/-- Source tickRain: update every particle, retain the ones still beyond
the planet radius. -/
def tickRain (planet : Obj) (dt : ℝ) (rainList : List Rain) : List Rain :=
  (rainList.map (tickRainOne planet dt)).filter
    (fun r => decide (numGtShape (vectorMath.magnitude
      (vectorMath.subtract r.location planet.location)) planet.shape))

/-- Source cloudRanges: ten fuzzy-overlapping angular sectors. -/
def cloudRanges : List (ℝ × ℝ) :=
  (List.range cloudRangeCount).map (fun i =>
    let rangeWidth := Real.pi * 2 / (cloudRangeCount : ℝ)
    let b := rangeWidth * (i : ℝ)
    let fuzzAmount := rangeWidth / 2
    let e := b + rangeWidth
    let fuzzyBegin := if i = 0 then Real.pi * 2 - fuzzAmount else b - fuzzAmount
    let fuzzyEnd := if i = cloudRangeCount - 1 then fuzzAmount else e + fuzzAmount
    (fuzzyBegin, fuzzyEnd))

/-- Sector membership test of getCloudGroups (strict comparisons; a sector
wrapping past zero is the case where its end is below its begin). -/
def inCloudRange (b e rot : ℝ) : Prop :=
  (e < b ∧ (rot > b ∨ rot < e)) ∨ (rot > b ∧ rot < e)

/-- Source getCloudGroups: one group per sector, a cloud joins every sector
whose fuzzy range contains its orbit rotation. -/
def getCloudGroups (store : Nat → Obj) (clouds : List Nat) : List (List Nat) :=
  cloudRanges.map (fun be =>
    clouds.filter (fun c => decide (inCloudRange be.1 be.2 (orbitOf (store c)).rotation)))

/-- One inner iteration of the clustering double loop of tickClouds.  Both
typeof guards of the source read cloud.shape: the local otherCloudShape is
assigned cloud.shape (tickWorld.tsx line 345), so the distance threshold
uses the minimum of the FIRST cloud silhouette for both operands.  A
scalar (circle) cloud silhouette throws in the source, here none.  On the
matching pair the second cloud inherits the orbital angular velocity of
the first and both friend sets gain the other cloud. -/
def clusterPair (store : Nat → Obj) (c other : Nat) : Option (Nat → Obj) :=
  match (store c).shape with
  | Shape.circle _ => none
  | Shape.ellipse s1 s2 =>
    match (store c).shape with
    | Shape.circle _ => none
    | Shape.ellipse t1 t2 =>
      if c = other then some store
      else
        let distance := vectorMath.magnitude
          (vectorMath.subtract (store other).location (store c).location)
        if distance < min s1 s2 + min t1 t2 / 4 then
          let store1 := setObj store other
            { store other with
              orbit := ((store other).orbit).map (fun ob =>
                { ob with rotationalVelocity := (orbitOf (store c)).rotationalVelocity })
              friends := insert c (store other).friends }
          some (setObj store1 c
            { store1 c with friends := insert other (store1 c).friends })
        else some store

/-- Clustering over one sector: every ordered pair of its clouds. -/
def clusterGroup (store : Nat → Obj) (g : List Nat) : Option (Nat → Obj) :=
  g.foldlM (fun s c => g.foldlM (fun s2 other => clusterPair s2 c other) s) store

/-- Clustering over all sectors. -/
def clusterClouds (store : Nat → Obj) (groups : List (List Nat)) : Option (Nat → Obj) :=
  groups.foldlM clusterGroup store

/-- Two-hop collective mass of tickClouds: own mass plus, for every
friend, its mass plus the masses of its friends. -/
def collectiveMass (store : Nat → Obj) (c : Nat) : ℝ :=
  (store c).mass +
    Finset.sum (store c).friends (fun f =>
      (store f).mass + Finset.sum (store f).friends (fun g => (store g).mass))

/-- The friend loop after a threshold crossing: every friend is set to
raining.  The source iterates the friend set and assigns each member;
the loop result is this pointwise update (order-independent). -/
def setFriendsRaining (store : Nat → Obj) (fs : Finset Nat) : Nat → Obj :=
  fun i => if i ∈ fs then { store i with state := CloudState.raining } else store i

/-- Source addCloudJitter, with the two Math.random() draws explicit. -/
def addCloudJitter (loc : Vector2d) (r0 r1 : ℝ) : Vector2d :=
  (loc.1 + (r0 - 0.5) * 1.0, loc.2 + (r1 - 0.5) * 0.3)

/-- Source createRandomCloud, with its five Math.random() draws explicit
in source evaluation order.  Throws (none) when the planet shape is not a
scalar radius. -/
def createRandomCloud (planetId : Nat) (planet : Obj) (r0 r1 r2 r3 r4 : ℝ) : Option Obj :=
  match planet.shape with
  | Shape.ellipse _ _ => none
  | Shape.circle planetRadius =>
    let initialRotation := r0 * 2 * Real.pi
    let minimumCloudHeight : ℝ := 1
    let orbitalRadius := planetRadius * 2 + minimumCloudHeight + r1 * 1
    let direction : ℝ := if planet.rotationalVelocity > 0 then 1 else -1
    let rotationalVelocityCoefficient := r2 * 700 + 800
    some
      { location := calcRotationalPoint orbitalRadius initialRotation
        rotation := 0
        rotationalVelocity := 0
        shape := Shape.ellipse (0.6 + r3 * 0.2) (0.4 + r4 * 0.2)
        orbit := some
          { rotation := initialRotation
            rotationalVelocity := direction * (2 * Real.pi) / rotationalVelocityCoefficient
            target := planetId
            shape := Shape.circle orbitalRadius }
        mass := 5
        state := CloudState.floating
        friends := ∅ }

/-- Mutable state threaded through the per-cloud loop of tickClouds:
the heap, the retained cloud list (which, through the aliasing of
worldState.water.clouds, also receives spawned clouds), the rain list,
the position in the random stream and the next fresh identifier. -/
structure TickCloudsState : Type where
  store : Nat → Obj
  remaining : List Nat
  rain : List Rain
  randIdx : Nat
  nextId : Nat

/-- The spawn check at the end of each loop iteration: while the ORIGINAL
cloud list length n is below 20, draw once; on success create a random
cloud (five further draws) and push it onto the retained list. -/
def spawnStep (rand : Nat → ℝ) (n planetId : Nat) (st : TickCloudsState) :
    Option TickCloudsState :=
  if n < 20 then
    if rand st.randIdx < 0.05 then
      (createRandomCloud planetId (st.store planetId)
          (rand (st.randIdx + 1)) (rand (st.randIdx + 2)) (rand (st.randIdx + 3))
          (rand (st.randIdx + 4)) (rand (st.randIdx + 5))).bind fun newCloud =>
        some { st with
          store := setObj st.store st.nextId newCloud
          remaining := st.remaining ++ [st.nextId]
          randIdx := st.randIdx + 6
          nextId := st.nextId + 1 }
    else some { st with randIdx := st.randIdx + 1 }
  else some st

/-- The threshold transition of tickClouds (lines 381-386): when the
collective mass exceeds the threshold, the cloud and every member of its
friend set become raining. -/
def thresholdStore (st : TickCloudsState) (c : Nat) : Nat → Obj :=
  if collectiveMass st.store c > rainThreshold then
    setFriendsRaining
      (setObj st.store c { st.store c with state := CloudState.raining })
      ((st.store c).friends)
  else st.store

/-- The emission probability of a raining cloud (lines 389-396):
the adjustment grows with the square of the collective mass m, is capped
at 1 and floored at 0.2, and the product with 0.1 times the elapsed time
is capped at 0.2. -/
def emissionProbability (dt m : ℝ) : ℝ :=
  min (0.1 * dt * max (min (0.01 * m ^ 2) 1.0) 0.2) 0.2

/-- The heap after the emission mass loss cloud.mass -= 0.1 (line 404). -/
def emitStore (st : TickCloudsState) (c : Nat) : Nat → Obj :=
  setObj (thresholdStore st c) c
    { thresholdStore st c c with mass := (thresholdStore st c c).mass - 0.1 }

/-- The rain particle pushed on emission (lines 406-413): jittered cloud
location, and the angular-to-linear conversion at the orbit radius. -/
def emittedRain (rand : Nat → ℝ) (st : TickCloudsState) (c : Nat)
    (cloudRadius : ℝ) : Rain :=
  { location := addCloudJitter ((emitStore st c) c).location
      (rand (st.randIdx + 1)) (rand (st.randIdx + 2))
    velocity := convertRotationalVelocityToEuclideanVelocity cloudRadius
      (orbitOf (thresholdStore st c c)).rotation
      (orbitOf (thresholdStore st c c)).rotationalVelocity }

/-- The loop state after a successful emission draw. -/
def emitState (rand : Nat → ℝ) (st : TickCloudsState) (c : Nat)
    (cloudRadius : ℝ) : TickCloudsState :=
  { store := emitStore st c
    remaining := if ((emitStore st c) c).mass > 0
      then st.remaining ++ [c] else st.remaining
    rain := st.rain ++ [emittedRain rand st c cloudRadius]
    randIdx := st.randIdx + 3
    nextId := st.nextId }

/-- The threshold transition plus the raining branch of the per-cloud
loop (lines 368-421): probabilistic rain emission with mass loss, and
retention of the cloud (a raining cloud is dropped once its mass is not
positive; a floating cloud is always retained).  A non-scalar cloud
orbit radius throws in the source, here none. -/
def rainPhase (dt : ℝ) (rand : Nat → ℝ) (st : TickCloudsState) (c : Nat) :
    Option TickCloudsState :=
  if (thresholdStore st c c).state = CloudState.raining then
    match (orbitOf (thresholdStore st c c)).shape with
    | Shape.ellipse _ _ => none
    | Shape.circle cloudRadius =>
      if rand st.randIdx < emissionProbability dt (collectiveMass st.store c) then
        some (emitState rand st c cloudRadius)
      else
        some { store := thresholdStore st c
               remaining := if (thresholdStore st c c).mass > 0
                 then st.remaining ++ [c] else st.remaining
               rain := st.rain
               randIdx := st.randIdx + 1
               nextId := st.nextId }
  else
    some { st with store := thresholdStore st c, remaining := st.remaining ++ [c] }

/-- One iteration of the per-cloud loop of tickClouds (lines 368-429):
the rain phase above followed by the spawn check. -/
def tickCloudStep (dt : ℝ) (rand : Nat → ℝ) (n planetId : Nat)
    (st : TickCloudsState) (c : Nat) : Option TickCloudsState :=
  (rainPhase dt rand st c).bind (spawnStep rand n planetId)

/-- The clustering passes of tickClouds applied to the current heap. -/
def clusterStore (store : Nat → Obj) (clouds : List Nat) : Option (Nat → Obj) :=
  clusterClouds store (getCloudGroups store clouds)

/-- The initial loop state of the per-cloud pass. -/
def initTickCloudsState (store0 : Nat → Obj) (w : World) (k : Nat) : TickCloudsState :=
  { store := store0, remaining := [], rain := w.rain, randIdx := k, nextId := w.nextId }

/-- Source tickClouds: clustering over sector groups, then the per-cloud
loop over the pre-tick cloud list.  The retained list replaces the cloud
collection (when the pre-tick list is empty the collection is untouched,
and both are the empty list). -/
def tickClouds (w : World) (dt : ℝ) (rand : Nat → ℝ) (k : Nat) :
    Option (World × Nat) :=
  (clusterStore w.store w.clouds).bind fun store0 =>
    (w.clouds.foldlM (tickCloudStep dt rand w.clouds.length w.planetId)
      (initTickCloudsState store0 w k)).bind fun st =>
      some ({ w with store := st.store, clouds := st.remaining,
                     rain := st.rain, nextId := st.nextId }, st.randIdx)

/-- Source constraintRadian. -/
def constraintRadian (radian : ℝ) : ℝ := jsMod radian (Real.pi * 2)

/-- Source mapPlantCoordinateToGlobal, one endpoint at a time, for a
circular planet of the given radius. -/
def mapPlantCoordinateToGlobal (planetRadius planetRotation plantRotation : ℝ)
    (p : Vector2d) : Vector2d :=
  let plantRootLocation := calcRotationalPoint planetRadius (planetRotation + plantRotation)
  vectorMath.add
    (vectorMath.rotate p (planetRotation + plantRotation - Real.pi / 2))
    plantRootLocation

/-- Source mapGlobalCoordinateToPlant, one endpoint at a time. -/
def mapGlobalCoordinateToPlant (planetRadius planetRotation plantRotation : ℝ)
    (p : Vector2d) : Vector2d :=
  let plantRootLocation := calcRotationalPoint planetRadius (planetRotation + plantRotation)
  vectorMath.rotate (vectorMath.subtract p plantRootLocation)
    (-(planetRotation + plantRotation) + Real.pi / 2)

/-- The growth step of tickPlant applied to one extent endpoint. -/
def growPlantPoint (sunLocation : Vector2d) (dt : ℝ) (p : Vector2d) : Vector2d :=
  vectorMath.add p
    (vectorMath.multiply (vectorMath.unitVector (vectorMath.subtract sunLocation p))
      (0.005 * dt))

/-- Recursive body of tickPlant for one plant part: when the sun is within
a quarter turn, children first, then both endpoints of the extent grow
toward the sun through a global-coordinate round trip. -/
def tickPlantPart (guardDistance planetRadius planetRotation plantRotation : ℝ)
    (sunLocation : Vector2d) (dt : ℝ) : PlantPart → PlantPart
  | PlantPart.mk extent children depth =>
    if guardDistance > Real.pi / 2 then PlantPart.mk extent children depth
    else
      let g := fun p => mapGlobalCoordinateToPlant planetRadius planetRotation plantRotation
        (growPlantPoint sunLocation dt
          (mapPlantCoordinateToGlobal planetRadius planetRotation plantRotation p))
      PlantPart.mk (g extent.1, g extent.2)
        (children.attach.map (fun x =>
          tickPlantPart guardDistance planetRadius planetRotation plantRotation
            sunLocation dt x.1))
        depth
decreasing_by
  have h := List.sizeOf_lt_of_mem x.2
  simp only [PlantPart.mk.sizeOf_spec]
  omega

/-- Source tickPlant for one plant.  The rotational-distance guard does
not depend on the plant part, so the recursion either skips the whole
plant or grows it; the typeof guard of mapPlantCoordinateToGlobal throws
(none) when growth is reached on a non-circular planet. -/
def tickPlant (w : World) (plant : Plant) (dt : ℝ) : Option Plant :=
  let sun := w.store w.sunId
  let planet := w.store w.planetId
  let rotationalDistance :=
    |constraintRadian (orbitOf sun).rotation -
      constraintRadian (planet.rotation + plant.rotation)|
  if rotationalDistance > Real.pi / 2 then some plant
  else
    match planet.shape with
    | Shape.ellipse _ _ => none
    | Shape.circle planetRadius =>
      let trunk2 := tickPlantPart rotationalDistance planetRadius planet.rotation
        plant.rotation sun.location dt plant.trunk
      some { plant with trunk := trunk2 }

/-- Source tickPlants. -/
def tickPlants (w : World) (dt : ℝ) : Option World :=
  (w.plants.mapM (fun p => tickPlant w p dt)).bind fun ps =>
    some { w with plants := ps }

/-- The processing order of the kinematics pass of tickWorld:
things = [sun, planet, ...clouds]. -/
def kinematicsOrder (w : World) : List Nat := w.sunId :: w.planetId :: w.clouds

/-- The world after the kinematics pass. -/
def postKin (w : World) (dt : ℝ) : World :=
  { w with store := tickCelestialObjects w.store (kinematicsOrder w) dt }

/-- Source tickWorld: the four ordered passes.  dt is the elapsed world
time (the source multiplies the elapsed wall-clock milliseconds by
timePerMs = 1/10 before use; that product is taken as the parameter). -/
def tickWorld (w : World) (dt : ℝ) (rand : Nat → ℝ) (k : Nat) :
    Option (World × Nat) :=
  (tickClouds (postKin w dt) dt rand k).bind fun p =>
    (tickPlants { p.1 with rain := tickRain (p.1.store p.1.planetId) dt p.1.rain }
      dt).bind fun w4 =>
      some (w4, p.2)

/-- Reachability by repeated ticks. -/
inductive Reaches : World → World → Prop
  | refl (w : World) : Reaches w w
  | tick (w w2 w3 : World) (dt : ℝ) (rand : Nat → ℝ) (k k2 : Nat) :
      Reaches w w2 → tickWorld w2 dt rand k = some (w3, k2) → Reaches w w3

/-! ## Basic numeric lemmas -/

theorem jsTrunc_of_nonneg {x : ℝ} (h : 0 ≤ x) : jsTrunc x = ⌊x⌋ := if_pos h

theorem jsMod_zero (b : ℝ) : jsMod 0 b = 0 := by
  simp [jsMod, jsTrunc]

theorem jsMod_eq_fract {a b : ℝ} (ha : 0 ≤ a) (hb : 0 < b) :
    jsMod a b = b * Int.fract (a / b) := by
  have hdiv : (0 : ℝ) ≤ a / b := div_nonneg ha hb.le
  rw [jsMod, jsTrunc_of_nonneg hdiv, Int.fract, mul_sub,
    mul_div_cancel₀ a (ne_of_gt hb)]

theorem jsMod_nonneg {a b : ℝ} (ha : 0 ≤ a) (hb : 0 < b) : 0 ≤ jsMod a b := by
  rw [jsMod_eq_fract ha hb]
  exact mul_nonneg hb.le (Int.fract_nonneg _)

theorem jsMod_lt {a b : ℝ} (ha : 0 ≤ a) (hb : 0 < b) : jsMod a b < b := by
  rw [jsMod_eq_fract ha hb]
  calc b * Int.fract (a / b) < b * 1 :=
        (mul_lt_mul_left hb).2 (Int.fract_lt_one _)
    _ = b := mul_one b

theorem jsMod_eq_self {a b : ℝ} (ha : 0 ≤ a) (hab : a < b) : jsMod a b = a := by
  have hb : 0 < b := lt_of_le_of_lt ha hab
  have hfloor : ⌊a / b⌋ = 0 := by
    rw [Int.floor_eq_zero_iff]
    constructor
    · exact div_nonneg ha hb.le
    · rw [div_lt_one hb]; exact hab
  rw [jsMod, jsTrunc_of_nonneg (div_nonneg ha hb.le), hfloor]
  simp

theorem two_pi_pos : (0 : ℝ) < Real.pi * 2 := by positivity

namespace vectorMath

theorem magnitude_nonneg (v : Vector2d) : 0 ≤ magnitude v := Real.sqrt_nonneg _

theorem sq_magnitude (v : Vector2d) : magnitude v ^ 2 = v.1 ^ 2 + v.2 ^ 2 :=
  Real.sq_sqrt (by positivity)

theorem magnitude_multiply (v : Vector2d) (t : ℝ) :
    magnitude (multiply v t) = |t| * magnitude v := by
  unfold magnitude multiply
  rw [show (v.1 * t) ^ 2 + (v.2 * t) ^ 2 = t ^ 2 * (v.1 ^ 2 + v.2 ^ 2) by ring,
    Real.sqrt_mul (sq_nonneg t), Real.sqrt_sq_eq_abs]

theorem magnitude_divide (v : Vector2d) (t : ℝ) :
    magnitude (divide v t) = magnitude v / |t| := by
  unfold magnitude divide
  rcases eq_or_ne t 0 with rfl | ht
  · simp
  · rw [show (v.1 / t) ^ 2 + (v.2 / t) ^ 2 = (v.1 ^ 2 + v.2 ^ 2) / t ^ 2 by
      field_simp]
    rw [Real.sqrt_div (by positivity), Real.sqrt_sq_eq_abs]

theorem magnitude_unitVector {v : Vector2d} (h : 0 < magnitude v) :
    magnitude (unitVector v) = 1 := by
  rw [unitVector, magnitude_divide, abs_of_pos h, div_self (ne_of_gt h)]

theorem magnitude_zero_iff (v : Vector2d) : magnitude v = 0 ↔ v = (0, 0) := by
  unfold magnitude
  rw [Real.sqrt_eq_zero (by positivity)]
  constructor
  · intro h
    have h1 : v.1 = 0 := by nlinarith [sq_nonneg v.1, sq_nonneg v.2]
    have h2 : v.2 = 0 := by nlinarith [sq_nonneg v.1, sq_nonneg v.2]
    exact Prod.ext h1 h2
  · rintro rfl; norm_num

end vectorMath

/-- The complex number with the components of a Vector2d, used to borrow
the triangle inequality from Mathlib. -/
def toComplex (v : Vector2d) : ℂ := ⟨v.1, v.2⟩

theorem magnitude_eq_abs (v : Vector2d) :
    vectorMath.magnitude v = Complex.abs (toComplex v) := by
  rw [vectorMath.magnitude, Complex.abs_apply, toComplex, Complex.normSq_mk]
  ring_nf

theorem toComplex_add (u w : Vector2d) :
    toComplex (vectorMath.add u w) = toComplex u + toComplex w := by
  apply Complex.ext <;> simp [toComplex, vectorMath.add]

theorem magnitude_add_ge (u w : Vector2d) :
    vectorMath.magnitude u - vectorMath.magnitude w ≤
      vectorMath.magnitude (vectorMath.add u w) := by
  rw [magnitude_eq_abs, magnitude_eq_abs, magnitude_eq_abs, toComplex_add]
  have h := Complex.abs.add_le (toComplex u + toComplex w) (-toComplex w)
  simp only [add_neg_cancel_right, map_neg_eq_map] at h
  linarith

/-! ## C8: clipMagnitude -/

/-- C8: for every Vector2d v and positive scalar m, the magnitude of
clipMagnitude v m is at most m; the vector is returned unchanged when its
magnitude is at most m and is the unit vector scaled by m otherwise. -/
theorem C8_clipMagnitude_spec (v : Vector2d) (m : ℝ) (hm : 0 < m) :
    vectorMath.magnitude (vectorMath.clipMagnitude v m) ≤ m ∧
    (vectorMath.magnitude v ≤ m → vectorMath.clipMagnitude v m = v) ∧
    (vectorMath.magnitude v > m →
      vectorMath.clipMagnitude v m =
        vectorMath.multiply (vectorMath.unitVector v) m) := by
  by_cases h : vectorMath.magnitude v > m
  · have hv : 0 < vectorMath.magnitude v := lt_trans hm h
    have hclip : vectorMath.clipMagnitude v m =
        vectorMath.multiply (vectorMath.unitVector v) m := by
      unfold vectorMath.clipMagnitude
      rw [if_pos h]
    have hmag : vectorMath.magnitude
        (vectorMath.multiply (vectorMath.unitVector v) m) = m := by
      rw [vectorMath.magnitude_multiply, vectorMath.magnitude_unitVector hv,
        mul_one, abs_of_pos hm]
    refine ⟨by rw [hclip, hmag], fun hle => absurd h (not_lt.2 hle), fun _ => hclip⟩
  · have hclip : vectorMath.clipMagnitude v m = v := by
      unfold vectorMath.clipMagnitude
      rw [if_neg h]
    push_neg at h
    exact ⟨by rw [hclip]; exact h, fun _ => hclip,
      fun hgt => absurd hgt (not_lt.2 h)⟩

theorem C8_clipMagnitude_spec_witness :
    (0 : ℝ) < 1 ∧
    (vectorMath.magnitude (vectorMath.clipMagnitude ((3 : ℝ), (4 : ℝ)) 1) ≤ 1 ∧
     (vectorMath.magnitude ((3 : ℝ), (4 : ℝ)) ≤ 1 →
       vectorMath.clipMagnitude ((3 : ℝ), (4 : ℝ)) 1 = ((3 : ℝ), (4 : ℝ))) ∧
     (vectorMath.magnitude ((3 : ℝ), (4 : ℝ)) > 1 →
       vectorMath.clipMagnitude ((3 : ℝ), (4 : ℝ)) 1 =
         vectorMath.multiply (vectorMath.unitVector ((3 : ℝ), (4 : ℝ))) 1)) :=
  ⟨by norm_num, C8_clipMagnitude_spec (3, 4) 1 (by norm_num)⟩

/-! ## C9: the two-hop collective mass counts the own mass of a cloud
again through any mutual friend -/

/-- C9: with nonnegative masses, a cloud A with a mutual friend B has
collective mass at least twice its own mass: its mass appears once as its
own and once inside the sum over the friends of B. -/
theorem C9_collectiveMass_double_counts (store : Nat → Obj) (A B : Nat)
    (hmass : ∀ i, 0 ≤ (store i).mass)
    (hAB : B ∈ (store A).friends) (hBA : A ∈ (store B).friends) :
    2 * (store A).mass ≤ collectiveMass store A := by
  unfold collectiveMass
  have hinner : (store A).mass ≤
      Finset.sum (store B).friends (fun g => (store g).mass) :=
    Finset.single_le_sum (fun i _ => hmass i) hBA
  have houter : (store B).mass +
      Finset.sum (store B).friends (fun g => (store g).mass) ≤
      Finset.sum (store A).friends (fun f =>
        (store f).mass + Finset.sum (store f).friends (fun g => (store g).mass)) :=
    Finset.single_le_sum
      (f := fun f => (store f).mass +
        Finset.sum (store f).friends (fun g => (store g).mass))
      (fun i _ => add_nonneg (hmass i) (Finset.sum_nonneg (fun j _ => hmass j))) hAB
  have hB := hmass B
  linarith

/-- Two clouds of mass five that are mutual friends, for the C9 witness. -/
def mutualStore : Nat → Obj := fun i =>
  if i = 0 then
    { location := (0, 0), rotation := 0, rotationalVelocity := 0,
      shape := Shape.ellipse 0.6 0.4, orbit := none, mass := 5,
      state := CloudState.floating, friends := {1} }
  else
    { location := (1, 0), rotation := 0, rotationalVelocity := 0,
      shape := Shape.ellipse 0.6 0.4, orbit := none, mass := 5,
      state := CloudState.floating, friends := {0} }

theorem C9_collectiveMass_double_counts_witness :
    (∀ i, 0 ≤ (mutualStore i).mass) ∧ 1 ∈ (mutualStore 0).friends ∧
    0 ∈ (mutualStore 1).friends ∧
    2 * (mutualStore 0).mass ≤ collectiveMass mutualStore 0 :=
  ⟨fun i => by by_cases h : i = 0 <;> norm_num [mutualStore, h],
   by norm_num [mutualStore],
   by norm_num [mutualStore],
   C9_collectiveMass_double_counts mutualStore 0 1
     (fun i => by by_cases h : i = 0 <;> norm_num [mutualStore, h])
     (by norm_num [mutualStore]) (by norm_num [mutualStore])⟩

/-! ## Pointwise description of the kinematics pass -/

theorem tickCelestial_apply_ne {store : Nat → Obj} {i j : Nat} (dt : ℝ)
    (h : i ≠ j) : tickCelestial store j dt i = store i := by
  unfold tickCelestial setObj
  cases horb : (store j).orbit <;>
    simp [horb, Function.update_noteq h]

/-- Abbreviation for "advance by velocity times dt, then wrap", the
update applied by the kinematics pass to every rotation field. -/
def wrapAngle (r v dt : ℝ) : ℝ := jsMod (r + v * dt) (Real.pi * 2)

theorem tickCelestial_apply_self_none {store : Nat → Obj} {j : Nat} (dt : ℝ)
    (h : (store j).orbit = none) :
    tickCelestial store j dt j =
      { store j with rotation := wrapAngle (store j).rotation (store j).rotationalVelocity dt } := by
  unfold tickCelestial setObj wrapAngle
  simp [h]

theorem tickCelestial_apply_self_some {store : Nat → Obj} {j : Nat} (dt : ℝ)
    {orb : Orbit} (h : (store j).orbit = some orb) :
    tickCelestial store j dt j =
      { store j with
        rotation := wrapAngle (store j).rotation (store j).rotationalVelocity dt
        orbit := some { orb with rotation := wrapAngle orb.rotation orb.rotationalVelocity dt }
        location := vectorMath.add (orbitPoint orb.shape (wrapAngle orb.rotation orb.rotationalVelocity dt)) ((store orb.target).location) } := by
  unfold tickCelestial setObj wrapAngle
  simp [h]

theorem tickCelestial_none_pres {store : Nat → Obj} {i j : Nat} (dt : ℝ)
    (h : (store i).orbit = none) :
    ((tickCelestial store j dt) i).orbit = none := by
  by_cases hij : i = j
  · subst hij; rw [tickCelestial_apply_self_none dt h]; exact h
  · rw [tickCelestial_apply_ne dt hij]; exact h

theorem tickCelestial_loc_of_none {store : Nat → Obj} {i j : Nat} (dt : ℝ)
    (h : (store i).orbit = none) :
    ((tickCelestial store j dt) i).location = (store i).location := by
  by_cases hij : i = j
  · subst hij; rw [tickCelestial_apply_self_none dt h]
  · rw [tickCelestial_apply_ne dt hij]

theorem tco_nil (store : Nat → Obj) (dt : ℝ) :
    tickCelestialObjects store [] dt = store := rfl

theorem tco_cons (store : Nat → Obj) (j : Nat) (rest : List Nat) (dt : ℝ) :
    tickCelestialObjects store (j :: rest) dt =
      tickCelestialObjects (tickCelestial store j dt) rest dt := rfl

theorem tco_none_pres {i : Nat} (dt : ℝ) :
    ∀ (order : List Nat) (store : Nat → Obj), (store i).orbit = none →
      ((tickCelestialObjects store order dt) i).orbit = none := by
  intro order
  induction order with
  | nil => intro store h; exact h
  | cons j rest ih =>
    intro store h
    rw [tco_cons]
    exact ih _ (tickCelestial_none_pres dt h)

theorem tco_loc_of_none {i : Nat} (dt : ℝ) :
    ∀ (order : List Nat) (store : Nat → Obj), (store i).orbit = none →
      ((tickCelestialObjects store order dt) i).location = (store i).location := by
  intro order
  induction order with
  | nil => intro store h; rfl
  | cons j rest ih =>
    intro store h
    rw [tco_cons, ih _ (tickCelestial_none_pres dt h),
      tickCelestial_loc_of_none dt h]

theorem tco_not_mem {i : Nat} (dt : ℝ) :
    ∀ (order : List Nat) (store : Nat → Obj), i ∉ order →
      (tickCelestialObjects store order dt) i = store i := by
  intro order
  induction order with
  | nil => intro store _; rfl
  | cons j rest ih =>
    intro store h
    rw [tco_cons, ih _ (fun hm => h (List.mem_cons_of_mem _ hm)),
      tickCelestial_apply_ne dt
        (fun hij => h (by rw [hij]; exact List.mem_cons_self _ _))]

/-! ## C1: processing order of the kinematics pass -/

/-- A placeholder heap object for order-only worlds. -/
def plainObj : Obj :=
  { location := (0, 0), rotation := 0, rotationalVelocity := 0,
    shape := Shape.circle 1, orbit := none, mass := 0,
    state := CloudState.floating, friends := ∅ }

/-- A world used only to exhibit the processing order of the kinematics
pass: sun identifier 0, planet identifier 1, one cloud identifier 2. -/
def W0 : World :=
  { store := fun _ => plainObj, sunId := 0, planetId := 1, clouds := [2],
    rain := [], ground := 0, plants := [], nextId := 3 }

/-- C1, counterexample: the kinematics pass processes
things = [sun, planet, ...clouds], so the sun comes strictly before the
planet, not root-to-leaf (planet first) as claimed. -/
theorem C1_counterexample :
    List.indexOf W0.sunId (kinematicsOrder W0) <
      List.indexOf W0.planetId (kinematicsOrder W0) ∧
    W0.sunId ≠ W0.planetId := by
  constructor
  · show List.indexOf 0 [0, 1, 2] < List.indexOf 1 [0, 1, 2]
    decide
  · show (0 : Nat) ≠ 1
    decide

/-- When every orbit target is itself orbit-free, every processed object
with an orbit ends the kinematics pass with a location equal to its orbit
point plus the end-of-pass location of its target. -/
theorem tco_orbit_location (store : Nat → Obj)
    (order : List Nat) (dt : ℝ)
    (htarget : ∀ i ∈ order, ∀ orb, (store i).orbit = some orb →
      (store orb.target).orbit = none) :
    ∀ i ∈ order, ∀ orb2,
      ((tickCelestialObjects store order dt) i).orbit = some orb2 →
      ((tickCelestialObjects store order dt) i).location =
        vectorMath.add (orbitPoint orb2.shape orb2.rotation)
          (((tickCelestialObjects store order dt) orb2.target).location) := by
  induction order generalizing store with
  | nil => intro i hi; exact absurd hi (List.not_mem_nil i)
  | cons j rest ih =>
    intro i hi orb2 horb2
    rw [tco_cons] at horb2 ⊢
    have htarget1 : ∀ i2 ∈ rest, ∀ orb,
        ((tickCelestial store j dt) i2).orbit = some orb →
        ((tickCelestial store j dt) orb.target).orbit = none := by
      intro i2 hi2 orb horb
      by_cases hij : i2 = j
      · subst hij
        rcases horb0 : (store i2).orbit with _ | orb0
        · rw [tickCelestial_apply_self_none dt horb0] at horb
          simp only [horb0] at horb
          exact absurd horb (by simp)
        · rw [tickCelestial_apply_self_some dt horb0] at horb
          simp only [Option.some.injEq] at horb
          subst horb
          exact tickCelestial_none_pres dt
            (htarget i2 (List.mem_cons_self _ _) orb0 horb0)
      · rw [tickCelestial_apply_ne dt hij] at horb
        exact tickCelestial_none_pres dt
          (htarget i2 (List.mem_cons_of_mem _ hi2) orb horb)
    by_cases hrest : i ∈ rest
    · exact ih _ htarget1 i hrest orb2 horb2
    · have hij : i = j := by
        rcases List.mem_cons.1 hi with h | h
        · exact h
        · exact absurd h hrest
      subst hij
      rw [tco_not_mem dt rest _ hrest] at horb2 ⊢
      rcases horb0 : (store i).orbit with _ | orb0
      · rw [tickCelestial_apply_self_none dt horb0] at horb2
        simp only [horb0] at horb2
        exact absurd horb2 (by simp)
      · rw [tickCelestial_apply_self_some dt horb0] at horb2 ⊢
        simp only [Option.some.injEq] at horb2
        subst horb2
        have hnone : (store orb0.target).orbit = none :=
          htarget i (List.mem_cons_self _ _) orb0 horb0
        have hloc : ((tickCelestialObjects (tickCelestial store i dt) rest dt)
            orb0.target).location = (store orb0.target).location := by
          rw [tco_loc_of_none dt rest _ (tickCelestial_none_pres dt hnone),
            tickCelestial_loc_of_none dt hnone]
        rw [hloc]

/-- C1, amended: the pass order is sun, planet, then clouds; still, when
every orbit target is itself orbit-free (in this program every target is
the planet, which has no orbit and whose location is therefore never
recomputed), every processed object with an orbit ends the pass with a
location equal to its orbit point plus the end-of-pass location of its
target. -/
theorem C1_kinematics_target_consistency (store : Nat → Obj)
    (order : List Nat) (dt : ℝ)
    (htarget : ∀ i ∈ order, ∀ orb, (store i).orbit = some orb →
      (store orb.target).orbit = none) :
    ∀ i ∈ order, ∀ orb2,
      ((tickCelestialObjects store order dt) i).orbit = some orb2 →
      ((tickCelestialObjects store order dt) i).location =
        vectorMath.add (orbitPoint orb2.shape orb2.rotation)
          (((tickCelestialObjects store order dt) orb2.target).location) :=
  tco_orbit_location store order dt htarget

/-- Store for the C1 witness: object 0 is orbit-free at (1, 2), object 1
orbits object 0 on a circle of radius 2 at phase 0. -/
def kinStore : Nat → Obj := fun i =>
  if i = 1 then
    { location := (3, 2), rotation := 0, rotationalVelocity := 0,
      shape := Shape.circle 1, orbit := some ⟨0, 0, 0, Shape.circle 2⟩,
      mass := 0, state := CloudState.floating, friends := ∅ }
  else
    { location := (1, 2), rotation := 0, rotationalVelocity := 0,
      shape := Shape.circle 1, orbit := none, mass := 0,
      state := CloudState.floating, friends := ∅ }

theorem kinStore_tco_one :
    (tickCelestialObjects kinStore [0, 1] 0) 1 =
      tickCelestial (tickCelestial kinStore 0 0) 1 0 1 := by
  rw [tco_cons, tco_cons, tco_nil]

theorem kinStore_orbit_eq :
    ((tickCelestialObjects kinStore [0, 1] 0) 1).orbit =
      some ⟨0, 0, 0, Shape.circle 2⟩ := by
  rw [kinStore_tco_one]
  have h1 : (tickCelestial kinStore 0 0) 1 = kinStore 1 :=
    tickCelestial_apply_ne 0 (by decide)
  have horb : ((tickCelestial kinStore 0 0) 1).orbit =
      some ⟨0, 0, 0, Shape.circle 2⟩ := by
    rw [h1]; norm_num [kinStore]
  rw [tickCelestial_apply_self_some 0 horb]
  have hw : wrapAngle 0 0 0 = 0 := by
    unfold wrapAngle
    norm_num [jsMod_zero]
  simp [hw]

theorem C1_kinematics_target_consistency_witness :
    (∀ i ∈ [0, 1], ∀ orb, (kinStore i).orbit = some orb →
      (kinStore orb.target).orbit = none) ∧
    ((tickCelestialObjects kinStore [0, 1] 0) 1).location =
      vectorMath.add (orbitPoint (Shape.circle 2) 0)
        (((tickCelestialObjects kinStore [0, 1] 0) 0).location) := by
  have htarget : ∀ i ∈ [0, 1], ∀ orb, (kinStore i).orbit = some orb →
      (kinStore orb.target).orbit = none := by
    intro i hi orb horb
    fin_cases hi
    · exact absurd horb (by simp [kinStore])
    · have : orb = ⟨0, 0, 0, Shape.circle 2⟩ := by
        have h := horb
        rw [show kinStore 1 =
          { location := (3, 2), rotation := 0, rotationalVelocity := 0,
            shape := Shape.circle 1, orbit := some ⟨0, 0, 0, Shape.circle 2⟩,
            mass := 0, state := CloudState.floating, friends := ∅ }
          from by norm_num [kinStore]] at h
        simpa using h.symm
      subst this
      norm_num [kinStore]
  refine ⟨htarget, ?_⟩
  have h := C1_kinematics_target_consistency kinStore [0, 1] 0 htarget 1
    (by decide) ⟨0, 0, 0, Shape.circle 2⟩ kinStore_orbit_eq
  exact h

/-! ## Write-effect analysis of the clustering pass -/

/-- Relation between a heap object before and after any number of
clustering iterations: every field is preserved except that the friend
set may grow and the orbital angular velocity may be overwritten. -/
structure ClusterStep (a b : Obj) : Prop where
  loc : b.location = a.location
  rot : b.rotation = a.rotation
  rotV : b.rotationalVelocity = a.rotationalVelocity
  shp : b.shape = a.shape
  ms : b.mass = a.mass
  st : b.state = a.state
  fr : a.friends ⊆ b.friends
  orbRot : b.orbit.map Orbit.rotation = a.orbit.map Orbit.rotation
  orbTarget : b.orbit.map Orbit.target = a.orbit.map Orbit.target
  orbShape : b.orbit.map Orbit.shape = a.orbit.map Orbit.shape

theorem clusterStep_refl (a : Obj) : ClusterStep a a :=
  ⟨rfl, rfl, rfl, rfl, rfl, rfl, Finset.Subset.refl _, rfl, rfl, rfl⟩

theorem clusterStep_trans {a b c : Obj} (h1 : ClusterStep a b)
    (h2 : ClusterStep b c) : ClusterStep a c :=
  ⟨h2.loc.trans h1.loc, h2.rot.trans h1.rot, h2.rotV.trans h1.rotV,
   h2.shp.trans h1.shp, h2.ms.trans h1.ms, h2.st.trans h1.st,
   Finset.Subset.trans h1.fr h2.fr, h2.orbRot.trans h1.orbRot,
   h2.orbTarget.trans h1.orbTarget, h2.orbShape.trans h1.orbShape⟩

theorem clusterPair_writes {store : Nat → Obj} {c other : Nat}
    {store2 : Nat → Obj} (h : clusterPair store c other = some store2) :
    ∀ i, ClusterStep (store i) (store2 i) := by
  intro i
  unfold clusterPair at h
  cases hsh : (store c).shape with
  | circle r =>
    simp only [hsh] at h
    exact absurd h (by simp)
  | ellipse s1 s2 =>
    simp only [hsh] at h
    by_cases hco : c = other
    · rw [if_pos hco] at h
      simp only [Option.some.injEq] at h
      subst h
      exact clusterStep_refl _
    · rw [if_neg hco] at h
      by_cases hdist : vectorMath.magnitude
          (vectorMath.subtract (store other).location (store c).location) <
          min s1 s2 + min s1 s2 / 4
      · rw [if_pos hdist] at h
        simp only [Option.some.injEq] at h
        subst h
        unfold setObj
        by_cases hic : i = c
        · subst hic
          rw [Function.update_same, Function.update_noteq hco]
          exact { loc := rfl, rot := rfl, rotV := rfl, shp := rfl, ms := rfl,
                  st := rfl, fr := Finset.subset_insert _ _, orbRot := rfl,
                  orbTarget := rfl, orbShape := rfl }
        · rw [Function.update_noteq hic]
          by_cases hio : i = other
          · subst hio
            rw [Function.update_same]
            refine { loc := rfl, rot := rfl, rotV := rfl, shp := rfl, ms := rfl,
                     st := rfl, fr := Finset.subset_insert _ _,
                     orbRot := ?_, orbTarget := ?_, orbShape := ?_ } <;>
              cases (store i).orbit <;> rfl
          · rw [Function.update_noteq hio]
            exact clusterStep_refl _
      · rw [if_neg hdist] at h
        simp only [Option.some.injEq] at h
        subst h
        exact clusterStep_refl _

/-- Generic invariant-propagation for an Option-valued left fold. -/
theorem foldlM_induction {α σ : Type} (Q : σ → Prop)
    (step : σ → α → Option σ) :
    ∀ (l : List α), (∀ s a s2, Q s → a ∈ l → step s a = some s2 → Q s2) →
    ∀ s s2, l.foldlM step s = some s2 → Q s → Q s2 := by
  intro l
  induction l with
  | nil =>
    intro _ s s2 h hQ
    have h2 : (some s : Option σ) = some s2 := h
    exact (Option.some.inj h2) ▸ hQ
  | cons a rest ih =>
    intro hstep s s2 h hQ
    rw [List.foldlM_cons] at h
    cases hs : step s a with
    | none => rw [hs] at h; exact absurd h (by simp)
    | some s1 =>
      rw [hs] at h
      have h3 : rest.foldlM step s1 = some s2 := h
      exact ih (fun s a2 s2 hQ2 ha2 => hstep s a2 s2 hQ2 (List.mem_cons_of_mem _ ha2))
        s1 s2 h3 (hstep s a s1 hQ (List.mem_cons_self _ _) hs)

/-- The whole clustering pass only performs ClusterStep writes. -/
theorem clusterClouds_writes {store : Nat → Obj} {groups : List (List Nat)}
    {store2 : Nat → Obj} (h : clusterClouds store groups = some store2) :
    ∀ i, ClusterStep (store i) (store2 i) := by
  have hg : ∀ (g : List Nat) (s s2 : Nat → Obj), clusterGroup s g = some s2 →
      ∀ i, ClusterStep (s i) (s2 i) := by
    intro g s s2 hgr
    unfold clusterGroup at hgr
    refine foldlM_induction (fun t => ∀ i, ClusterStep (s i) (t i)) _ g
      ?_ s s2 hgr (fun i => clusterStep_refl _)
    intro t c t2 hQ _ hstep
    refine foldlM_induction (fun u => ∀ i, ClusterStep (s i) (u i)) _ g
      ?_ t t2 hstep hQ
    intro u o u2 hQ2 _ hpair i
    exact clusterStep_trans (hQ2 i) (clusterPair_writes hpair i)
  unfold clusterClouds at h
  refine foldlM_induction (fun t => ∀ i, ClusterStep (store i) (t i)) _ groups
    ?_ store store2 h (fun i => clusterStep_refl _)
  intro t g t2 hQ _ hgr i
  exact clusterStep_trans (hQ i) (hg g t t2 hgr i)

/-! ## Write-effect analysis of the per-cloud pass -/

/-- Relation between a heap object before and after any number of
iterations of the per-cloud loop, restricted to identifiers that already
existed: everything is preserved except the mass (emission) and the state
(which can only move to raining). -/
structure PhaseBStep (a b : Obj) : Prop where
  loc : b.location = a.location
  rot : b.rotation = a.rotation
  rotV : b.rotationalVelocity = a.rotationalVelocity
  shp : b.shape = a.shape
  fr : b.friends = a.friends
  orb : b.orbit = a.orbit
  st : a.state = CloudState.raining → b.state = CloudState.raining

theorem phaseBStep_refl (a : Obj) : PhaseBStep a a :=
  ⟨rfl, rfl, rfl, rfl, rfl, rfl, fun h => h⟩

theorem phaseBStep_trans {a b c : Obj} (h1 : PhaseBStep a b)
    (h2 : PhaseBStep b c) : PhaseBStep a c :=
  ⟨h2.loc.trans h1.loc, h2.rot.trans h1.rot, h2.rotV.trans h1.rotV,
   h2.shp.trans h1.shp, h2.fr.trans h1.fr, h2.orb.trans h1.orb,
   fun h => h2.st (h1.st h)⟩

theorem setFriendsRaining_apply (store : Nat → Obj) (fs : Finset Nat) (i : Nat) :
    setFriendsRaining store fs i =
      if i ∈ fs then { store i with state := CloudState.raining } else store i := rfl

theorem thresholdStore_writes (st : TickCloudsState) (c : Nat) (i : Nat) :
    PhaseBStep (st.store i) (thresholdStore st c i) ∧
    (thresholdStore st c i).mass = (st.store i).mass := by
  unfold thresholdStore
  by_cases hm : collectiveMass st.store c > rainThreshold
  · rw [if_pos hm, setFriendsRaining_apply]
    by_cases hif : i ∈ (st.store c).friends
    · rw [if_pos hif]
      unfold setObj
      by_cases hic : i = c
      · subst hic
        rw [Function.update_same]
        exact ⟨⟨rfl, rfl, rfl, rfl, rfl, rfl, fun _ => rfl⟩, rfl⟩
      · rw [Function.update_noteq hic]
        exact ⟨⟨rfl, rfl, rfl, rfl, rfl, rfl, fun _ => rfl⟩, rfl⟩
    · rw [if_neg hif]
      unfold setObj
      by_cases hic : i = c
      · subst hic
        rw [Function.update_same]
        exact ⟨⟨rfl, rfl, rfl, rfl, rfl, rfl, fun _ => rfl⟩, rfl⟩
      · rw [Function.update_noteq hic]
        exact ⟨phaseBStep_refl _, rfl⟩
  · rw [if_neg hm]
    exact ⟨phaseBStep_refl _, rfl⟩

theorem emissionProbability_zero (m : ℝ) : emissionProbability 0 m = 0 := by
  unfold emissionProbability
  rw [show (0.1 : ℝ) * 0 * max (min (0.01 * m ^ 2) 1.0) 0.2 = 0 by ring]
  exact min_eq_left (by norm_num)

theorem emitStore_writes (st : TickCloudsState) (c : Nat) (i : Nat) :
    PhaseBStep (st.store i) (emitStore st c i) ∧
    (i ≠ c → (emitStore st c i).mass = (st.store i).mass) := by
  unfold emitStore setObj
  by_cases hic : i = c
  · subst hic
    rw [Function.update_same]
    exact ⟨phaseBStep_trans (thresholdStore_writes st i i).1
      ⟨rfl, rfl, rfl, rfl, rfl, rfl, fun h => h⟩, fun h => absurd rfl h⟩
  · rw [Function.update_noteq hic]
    exact ⟨(thresholdStore_writes st c i).1, fun _ => (thresholdStore_writes st c i).2⟩

theorem emittedRain_location (rand : Nat → ℝ) (st : TickCloudsState) (c : Nat)
    (cloudRadius : ℝ) :
    (emittedRain rand st c cloudRadius).location =
      addCloudJitter ((st.store c).location)
        (rand (st.randIdx + 1)) (rand (st.randIdx + 2)) := by
  unfold emittedRain emitStore setObj
  rw [Function.update_same]
  have hloc : (thresholdStore st c c).location = (st.store c).location :=
    (thresholdStore_writes st c c).1.loc
  simp [hloc]

/-- The raining branch keeps the heap pointwise except for the threshold
transition and the emission mass loss at the processed cloud. -/
theorem rainPhase_writes {dt : ℝ} {rand : Nat → ℝ} {st : TickCloudsState}
    {c : Nat} {st2 : TickCloudsState}
    (h : rainPhase dt rand st c = some st2) :
    st2.nextId = st.nextId ∧
    (∀ i, PhaseBStep (st.store i) (st2.store i)) ∧
    (∃ tail, st2.remaining = st.remaining ++ tail ∧ ∀ x ∈ tail, x = c) ∧
    (∀ r ∈ st2.rain, r ∈ st.rain ∨ ∃ a b : Nat,
      r.location = addCloudJitter ((st.store c).location) (rand a) (rand b)) ∧
    (dt = 0 → (∀ mm, 0 ≤ rand mm) →
      (∀ i, (st2.store i).mass = (st.store i).mass) ∧ st2.rain = st.rain ∧
      (0 < (st.store c).mass → st2.remaining = st.remaining ++ [c])) := by
  unfold rainPhase at h
  by_cases hst : (thresholdStore st c c).state = CloudState.raining
  · rw [if_pos hst] at h
    cases hsh : (orbitOf (thresholdStore st c c)).shape with
    | ellipse a b =>
      simp only [hsh] at h
      exact absurd h (by simp)
    | circle cloudRadius =>
      simp only [hsh] at h
      by_cases hemit : rand st.randIdx <
          emissionProbability dt (collectiveMass st.store c)
      · rw [if_pos hemit] at h
        simp only [Option.some.injEq] at h
        subst h
        have hdt0 : dt = 0 → (∀ mm, 0 ≤ rand mm) → False := by
          intro hdt hrand
          subst hdt
          rw [emissionProbability_zero] at hemit
          exact absurd hemit (not_lt.2 (hrand st.randIdx))
        refine ⟨rfl, fun i => (emitStore_writes st c i).1, ?_, ?_,
          fun hdt hrand => absurd (hdt0 hdt hrand) (fun f => f)⟩
        · refine ⟨if (emitStore st c c).mass > 0 then [c] else [], ?_, ?_⟩
          · show (if (emitStore st c c).mass > 0
              then st.remaining ++ [c] else st.remaining) = _
            split <;> simp
          · intro x hx
            split at hx
            · simpa using hx
            · exact absurd hx (by simp)
        · intro r hr
          rcases List.mem_append.1 hr with hold | hnew
          · exact Or.inl hold
          · refine Or.inr ⟨st.randIdx + 1, st.randIdx + 2, ?_⟩
            have hr2 : r = emittedRain rand st c cloudRadius := by simpa using hnew
            rw [hr2, emittedRain_location]
      · rw [if_neg hemit] at h
        simp only [Option.some.injEq] at h
        subst h
        refine ⟨rfl, fun i => (thresholdStore_writes st c i).1, ?_,
          fun r hr => Or.inl hr, ?_⟩
        · refine ⟨if (thresholdStore st c c).mass > 0 then [c] else [], ?_, ?_⟩
          · show (if (thresholdStore st c c).mass > 0
              then st.remaining ++ [c] else st.remaining) = _
            split <;> simp
          · intro x hx
            split at hx
            · simpa using hx
            · exact absurd hx (by simp)
        · intro _ _
          refine ⟨fun i => (thresholdStore_writes st c i).2, rfl, ?_⟩
          intro hmass
          have hpos : (thresholdStore st c c).mass > 0 := by
            rw [(thresholdStore_writes st c c).2]; exact hmass
          show (if (thresholdStore st c c).mass > 0
            then st.remaining ++ [c] else st.remaining) = _
          rw [if_pos hpos]
  · rw [if_neg hst] at h
    simp only [Option.some.injEq] at h
    subst h
    refine ⟨rfl, fun i => (thresholdStore_writes st c i).1, ⟨[c], rfl, by simp⟩,
      fun r hr => Or.inl hr, fun _ _ =>
        ⟨fun i => (thresholdStore_writes st c i).2, rfl, fun _ => rfl⟩⟩

theorem createRandomCloud_inv {planetId : Nat} {planet : Obj}
    {r0 r1 r2 r3 r4 : ℝ} {o : Obj}
    (h : createRandomCloud planetId planet r0 r1 r2 r3 r4 = some o) :
    o.rotation = 0 ∧ o.state = CloudState.floating ∧ o.friends = ∅ ∧
    (∀ orb ∈ o.orbit, orb.rotation = r0 * 2 * Real.pi) := by
  unfold createRandomCloud at h
  cases hsh : planet.shape with
  | ellipse a b =>
    simp only [hsh] at h
    exact absurd h (by simp)
  | circle planetRadius =>
    simp only [hsh, Option.some.injEq] at h
    subst h
    refine ⟨rfl, rfl, rfl, ?_⟩
    intro orb horb
    simp only [Option.mem_def, Option.some.injEq] at horb
    subst horb
    rfl

/-- The spawn check leaves all existing identifiers untouched, keeps the
rain, extends the retained list at most by one fresh identifier, and any
spawned cloud has spin zero and an orbit phase of a random draw times a
full turn. -/
theorem spawnStep_writes {rand : Nat → ℝ} {n planetId : Nat}
    {st st2 : TickCloudsState} (h : spawnStep rand n planetId st = some st2) :
    st.nextId ≤ st2.nextId ∧
    (∀ i, i < st.nextId → st2.store i = st.store i) ∧
    st2.rain = st.rain ∧
    (∃ tail, st2.remaining = st.remaining ++ tail ∧
      ∀ x ∈ tail, st.nextId ≤ x ∧ x < st2.nextId) ∧
    (∀ x, st.nextId ≤ x → x < st2.nextId → (st2.store x).rotation = 0 ∧
      (st2.store x).state = CloudState.floating ∧ (st2.store x).friends = ∅ ∧
      (∀ orb ∈ (st2.store x).orbit, ∃ mm, orb.rotation = rand mm * 2 * Real.pi)) ∧
    st.remaining.length ≤ st2.remaining.length := by
  unfold spawnStep at h
  by_cases hn : n < 20
  · rw [if_pos hn] at h
    by_cases hdraw : rand st.randIdx < 0.05
    · rw [if_pos hdraw] at h
      cases hcr : createRandomCloud planetId (st.store planetId)
          (rand (st.randIdx + 1)) (rand (st.randIdx + 2)) (rand (st.randIdx + 3))
          (rand (st.randIdx + 4)) (rand (st.randIdx + 5)) with
      | none =>
        rw [hcr] at h
        exact absurd h (by simp)
      | some newCloud =>
        rw [hcr, Option.some_bind] at h
        simp only [Option.some.injEq] at h
        subst h
        obtain ⟨hrot, hstate, hfr, horb⟩ := createRandomCloud_inv hcr
        refine ⟨Nat.le_succ _, ?_, rfl, ⟨[st.nextId], rfl, ?_⟩, ?_, by simp⟩
        · intro i hi
          unfold setObj
          exact Function.update_noteq (Nat.ne_of_lt hi) _ _
        · intro x hx
          simp only [List.mem_singleton] at hx
          subst hx
          exact ⟨le_refl _, Nat.lt_succ_self _⟩
        · intro x hx1 hx2
          have hx2b : x < st.nextId + 1 := hx2
          have hx : x = st.nextId := by omega
          subst hx
          dsimp only [setObj]
          rw [Function.update_same]
          exact ⟨hrot, hstate, hfr, fun orb ho => ⟨st.randIdx + 1, horb orb ho⟩⟩
    · rw [if_neg hdraw] at h
      simp only [Option.some.injEq] at h
      subst h
      exact ⟨le_refl _, fun i _ => rfl, rfl, ⟨[], by simp, by simp⟩,
        fun x hx1 hx2 => absurd (lt_of_le_of_lt hx1 hx2) (lt_irrefl _), le_refl _⟩
  · rw [if_neg hn] at h
    simp only [Option.some.injEq] at h
    subst h
    exact ⟨le_refl _, fun i _ => rfl, rfl, ⟨[], by simp, by simp⟩,
      fun x hx1 hx2 => absurd (lt_of_le_of_lt hx1 hx2) (lt_irrefl _), le_refl _⟩

/-- Combined write-effect of one per-cloud loop iteration. -/
theorem tickCloudStep_writes {dt : ℝ} {rand : Nat → ℝ} {n planetId : Nat}
    {st st2 : TickCloudsState} {c : Nat}
    (h : tickCloudStep dt rand n planetId st c = some st2) :
    st.nextId ≤ st2.nextId ∧
    (∀ i, i < st.nextId → PhaseBStep (st.store i) (st2.store i)) ∧
    (∃ tail, st2.remaining = st.remaining ++ tail ∧
      ∀ x ∈ tail, x = c ∨ (st.nextId ≤ x ∧ x < st2.nextId)) ∧
    (∀ r ∈ st2.rain, r ∈ st.rain ∨ ∃ a b : Nat,
      r.location = addCloudJitter ((st.store c).location) (rand a) (rand b)) ∧
    (∀ x, st.nextId ≤ x → x < st2.nextId → (st2.store x).rotation = 0 ∧
      (st2.store x).state = CloudState.floating ∧ (st2.store x).friends = ∅ ∧
      (∀ orb ∈ (st2.store x).orbit, ∃ mm, orb.rotation = rand mm * 2 * Real.pi)) ∧
    (dt = 0 → (∀ mm, 0 ≤ rand mm) →
      (∀ i, i < st.nextId → (st2.store i).mass = (st.store i).mass) ∧
      st2.rain = st.rain ∧
      (0 < (st.store c).mass →
        st.remaining.length + 1 ≤ st2.remaining.length)) := by
  unfold tickCloudStep at h
  cases hrp : rainPhase dt rand st c with
  | none =>
    rw [hrp] at h
    exact absurd h (by simp)
  | some stMid =>
    rw [hrp, Option.some_bind] at h
    obtain ⟨hnext1, hobj1, ⟨tail1, htail1, htail1c⟩, hrain1, hdt1⟩ :=
      rainPhase_writes hrp
    obtain ⟨hnext2, hobj2, hrain2, ⟨tail2, htail2, htail2r⟩, hspawn2, hlen2⟩ :=
      spawnStep_writes h
    refine ⟨?_, ?_, ?_, ?_, ?_, ?_⟩
    · omega
    · intro i hi
      have h2 := hobj2 i (by omega)
      rw [h2]
      exact hobj1 i
    · refine ⟨tail1 ++ tail2, by rw [htail2, htail1, List.append_assoc], ?_⟩
      intro x hx
      rcases List.mem_append.1 hx with h1 | h2
      · exact Or.inl (htail1c x h1)
      · have := htail2r x h2
        exact Or.inr (by omega)
    · intro r hr
      rw [hrain2] at hr
      exact hrain1 r hr
    · intro x hx1 hx2
      have hx1m : stMid.nextId ≤ x := by omega
      exact hspawn2 x hx1m hx2
    · intro hdt hrand
      obtain ⟨hmass1, hraineq1, hrem1⟩ := hdt1 hdt hrand
      refine ⟨?_, ?_, ?_⟩
      · intro i hi
        rw [hobj2 i (by omega)]
        exact hmass1 i
      · rw [hrain2, hraineq1]
      · intro hmass
        have := hrem1 hmass
        have hlenMid : st.remaining.length + 1 = stMid.remaining.length := by
          rw [this]; simp
        omega

/-- The kinematics pass only writes rotation fields and locations: friend
sets, states, masses, shapes, velocities, orbit targets and orbit shapes
are untouched. -/
theorem tickCelestial_misc (store : Nat → Obj) (j : Nat) (dt : ℝ) (i : Nat) :
    ((tickCelestial store j dt) i).friends = (store i).friends ∧
    ((tickCelestial store j dt) i).state = (store i).state ∧
    ((tickCelestial store j dt) i).mass = (store i).mass ∧
    ((tickCelestial store j dt) i).shape = (store i).shape ∧
    ((tickCelestial store j dt) i).rotationalVelocity = (store i).rotationalVelocity ∧
    ((tickCelestial store j dt) i).orbit.map Orbit.target =
      (store i).orbit.map Orbit.target ∧
    ((tickCelestial store j dt) i).orbit.map Orbit.shape =
      (store i).orbit.map Orbit.shape ∧
    ((tickCelestial store j dt) i).orbit.map Orbit.rotationalVelocity =
      (store i).orbit.map Orbit.rotationalVelocity := by
  by_cases hij : i = j
  · subst hij
    rcases horb : (store i).orbit with _ | orb
    · rw [tickCelestial_apply_self_none dt horb]
      refine ⟨rfl, rfl, rfl, rfl, rfl, ?_, ?_, ?_⟩ <;> simp [horb]
    · rw [tickCelestial_apply_self_some dt horb]
      refine ⟨rfl, rfl, rfl, rfl, rfl, ?_, ?_, ?_⟩ <;> simp [horb]
  · rw [tickCelestial_apply_ne dt hij]
    refine ⟨rfl, rfl, rfl, rfl, rfl, rfl, rfl, rfl⟩

theorem tco_misc (dt : ℝ) (i : Nat) :
    ∀ (order : List Nat) (store : Nat → Obj),
    ((tickCelestialObjects store order dt) i).friends = (store i).friends ∧
    ((tickCelestialObjects store order dt) i).state = (store i).state ∧
    ((tickCelestialObjects store order dt) i).mass = (store i).mass ∧
    ((tickCelestialObjects store order dt) i).shape = (store i).shape ∧
    ((tickCelestialObjects store order dt) i).rotationalVelocity =
      (store i).rotationalVelocity ∧
    ((tickCelestialObjects store order dt) i).orbit.map Orbit.target =
      (store i).orbit.map Orbit.target ∧
    ((tickCelestialObjects store order dt) i).orbit.map Orbit.shape =
      (store i).orbit.map Orbit.shape ∧
    ((tickCelestialObjects store order dt) i).orbit.map Orbit.rotationalVelocity =
      (store i).orbit.map Orbit.rotationalVelocity := by
  intro order
  induction order with
  | nil => intro store; exact ⟨rfl, rfl, rfl, rfl, rfl, rfl, rfl, rfl⟩
  | cons j rest ih =>
    intro store
    rw [tco_cons]
    obtain ⟨f1, f2, f3, f4, f5, f6, f7, f8⟩ := ih (tickCelestial store j dt)
    obtain ⟨g1, g2, g3, g4, g5, g6, g7, g8⟩ := tickCelestial_misc store j dt i
    exact ⟨f1.trans g1, f2.trans g2, f3.trans g3, f4.trans g4, f5.trans g5,
      f6.trans g6, f7.trans g7, f8.trans g8⟩

/-- Relation between a heap object before and after the whole cloud pass
(clustering plus per-cloud loop), at pre-existing identifiers. -/
structure CloudPassStep (a b : Obj) : Prop where
  loc : b.location = a.location
  rot : b.rotation = a.rotation
  rotV : b.rotationalVelocity = a.rotationalVelocity
  shp : b.shape = a.shape
  fr : a.friends ⊆ b.friends
  orbRot : b.orbit.map Orbit.rotation = a.orbit.map Orbit.rotation
  orbTarget : b.orbit.map Orbit.target = a.orbit.map Orbit.target
  orbShape : b.orbit.map Orbit.shape = a.orbit.map Orbit.shape
  st : a.state = CloudState.raining → b.state = CloudState.raining

theorem cloudPassStep_of (a b c : Obj) (h1 : ClusterStep a b)
    (h2 : PhaseBStep b c) : CloudPassStep a c := by
  refine ⟨h2.loc.trans h1.loc, h2.rot.trans h1.rot, h2.rotV.trans h1.rotV,
    h2.shp.trans h1.shp, Finset.Subset.trans h1.fr (le_of_eq h2.fr.symm),
    ?_, ?_, ?_, ?_⟩
  · rw [h2.orb]; exact h1.orbRot
  · rw [h2.orb]; exact h1.orbTarget
  · rw [h2.orb]; exact h1.orbShape
  · intro hst
    apply h2.st
    rw [h1.st]; exact hst

/-- Write-effect of the whole tickClouds call, for a world whose live
cloud identifiers are below the allocation bound. -/
theorem tickClouds_writes {w : World} {dt : ℝ} {rand : Nat → ℝ} {k : Nat}
    {w2 : World} {k2 : Nat}
    (hbound : ∀ c ∈ w.clouds, c < w.nextId)
    (h : tickClouds w dt rand k = some (w2, k2)) :
    w.nextId ≤ w2.nextId ∧
    w2.sunId = w.sunId ∧ w2.planetId = w.planetId ∧
    (∀ i, i < w.nextId → CloudPassStep (w.store i) (w2.store i)) ∧
    (∀ x ∈ w2.clouds, x ∈ w.clouds ∨ (w.nextId ≤ x ∧ x < w2.nextId)) ∧
    (∀ x, w.nextId ≤ x → x < w2.nextId → (w2.store x).rotation = 0 ∧
      (∀ orb ∈ (w2.store x).orbit, ∃ mm, orb.rotation = rand mm * 2 * Real.pi)) ∧
    (∀ r ∈ w2.rain, r ∈ w.rain ∨ ∃ c ∈ w.clouds, ∃ a b : Nat,
      r.location = addCloudJitter ((w.store c).location) (rand a) (rand b)) ∧
    (dt = 0 → (∀ mm, 0 ≤ rand mm) →
      (∀ i, i < w.nextId → (w2.store i).mass = (w.store i).mass) ∧
      w2.rain = w.rain) := by
  unfold tickClouds at h
  cases hcs : clusterStore w.store w.clouds with
  | none => rw [hcs] at h; exact absurd h (by simp)
  | some store0 =>
    rw [hcs, Option.some_bind] at h
    have hcluster : ∀ i, ClusterStep (w.store i) (store0 i) :=
      clusterClouds_writes (by unfold clusterStore at hcs; exact hcs)
    cases hfold : w.clouds.foldlM (tickCloudStep dt rand w.clouds.length w.planetId)
        (initTickCloudsState store0 w k) with
    | none => rw [hfold] at h; exact absurd h (by simp)
    | some st =>
      rw [hfold, Option.some_bind] at h
      simp only [Option.some.injEq, Prod.mk.injEq] at h
      obtain ⟨hw2, _⟩ := h
      subst hw2
      have hQ := foldlM_induction (fun st =>
          w.nextId ≤ st.nextId ∧
          (∀ i, i < w.nextId → PhaseBStep (store0 i) (st.store i)) ∧
          (∀ x ∈ st.remaining, x ∈ w.clouds ∨ (w.nextId ≤ x ∧ x < st.nextId)) ∧
          (∀ x, w.nextId ≤ x → x < st.nextId → (st.store x).rotation = 0 ∧
            (∀ orb ∈ (st.store x).orbit, ∃ mm, orb.rotation = rand mm * 2 * Real.pi)) ∧
          (∀ r ∈ st.rain, r ∈ w.rain ∨ ∃ c ∈ w.clouds, ∃ a b : Nat,
            r.location = addCloudJitter ((store0 c).location) (rand a) (rand b)) ∧
          (dt = 0 → (∀ mm, 0 ≤ rand mm) →
            (∀ i, i < w.nextId → (st.store i).mass = (store0 i).mass) ∧
            st.rain = w.rain))
        (tickCloudStep dt rand w.clouds.length w.planetId) w.clouds
        ?_ _ st hfold
        ⟨le_refl _, fun i _ => phaseBStep_refl _,
         fun x hx => absurd hx (List.not_mem_nil x),
         fun x hx1 hx2 => absurd (lt_of_le_of_lt hx1 hx2) (lt_irrefl _),
         fun r hr => Or.inl hr, fun _ _ => ⟨fun i _ => rfl, rfl⟩⟩
      · obtain ⟨q1, q2, q3, q4, q5, q6⟩ := hQ
        refine ⟨q1, rfl, rfl, ?_, q3, q4, ?_, ?_⟩
        · intro i hi
          exact cloudPassStep_of _ _ _ (hcluster i) (q2 i hi)
        · intro r hr
          rcases q5 r hr with hold | ⟨c, hc, a, b, hloc⟩
          · exact Or.inl hold
          · exact Or.inr ⟨c, hc, a, b, by rw [hloc, (hcluster c).loc]⟩
        · intro hdt hrand
          obtain ⟨hm, hr⟩ := q6 hdt hrand
          exact ⟨fun i hi => ((hm i hi).trans (hcluster i).ms), hr⟩
      · intro s c s2 hQs hc hstep
        obtain ⟨p1, p2, p3, p4, p5, p6⟩ := hQs
        obtain ⟨t1, t2, ⟨tail, htail, htailc⟩, t4, t5, t6⟩ :=
          tickCloudStep_writes hstep
        have hcb : c < w.nextId := hbound c hc
        refine ⟨le_trans p1 t1, ?_, ?_, ?_, ?_, ?_⟩
        · intro i hi
          exact phaseBStep_trans (p2 i hi) (t2 i (lt_of_lt_of_le hi p1))
        · intro x hx
          rw [htail] at hx
          rcases List.mem_append.1 hx with hx1 | hx2
          · rcases p3 x hx1 with hin | hrange
            · exact Or.inl hin
            · exact Or.inr ⟨hrange.1, lt_of_lt_of_le hrange.2 t1⟩
          · rcases htailc x hx2 with rfl | hrange
            · exact Or.inl hc
            · exact Or.inr ⟨le_trans p1 hrange.1, hrange.2⟩
        · intro x hx1 hx2
          by_cases hxs : x < s.nextId
          · obtain ⟨hr0, horb⟩ := p4 x hx1 hxs
            have hstep2 := t2 x hxs
            refine ⟨hstep2.rot.trans hr0, ?_⟩
            rw [hstep2.orb]
            exact horb
          · obtain ⟨u1, _, _, u4⟩ := t5 x (le_of_not_lt hxs) hx2
            exact ⟨u1, u4⟩
        · intro r hr
          rcases t4 r hr with hold | ⟨a, b, hloc⟩
          · exact p5 r hold
          · refine Or.inr ⟨c, hc, a, b, ?_⟩
            rw [hloc, (p2 c hcb).loc]
        · intro hdt hrand
          obtain ⟨hm1, hr1⟩ := p6 hdt hrand
          obtain ⟨hm2, hr2, _⟩ := t6 hdt hrand
          exact ⟨fun i hi => (hm2 i (lt_of_lt_of_le hi p1)).trans (hm1 i hi),
            hr2.trans hr1⟩

/-- Under a zero delta and a nonnegative random stream the retained cloud
list is at least as long as the processed list (no cloud is dropped). -/
theorem phaseB_count {dt : ℝ} {rand : Nat → ℝ} {n pid : Nat}
    (hdt : dt = 0) (hrand : ∀ mm, 0 ≤ rand mm) :
    ∀ (l : List Nat) (st st2 : TickCloudsState),
      l.foldlM (tickCloudStep dt rand n pid) st = some st2 →
      (∀ c ∈ l, c < st.nextId ∧ 0 < (st.store c).mass) →
      st.remaining.length + l.length ≤ st2.remaining.length := by
  intro l
  induction l with
  | nil =>
    intro st st2 h _
    have h2 : (some st : Option TickCloudsState) = some st2 := h
    rw [Option.some.inj h2]
    simp
  | cons c rest ih =>
    intro st st2 h hc
    rw [List.foldlM_cons] at h
    cases hs : tickCloudStep dt rand n pid st c with
    | none => rw [hs] at h; exact absurd h (by simp)
    | some st1 =>
      rw [hs] at h
      have h3 : rest.foldlM (tickCloudStep dt rand n pid) st1 = some st2 := h
      obtain ⟨t1, t2, _, _, _, t6⟩ := tickCloudStep_writes hs
      obtain ⟨hm, _, hlen⟩ := t6 hdt hrand
      have hstep : st.remaining.length + 1 ≤ st1.remaining.length :=
        hlen (hc c (List.mem_cons_self _ _)).2
      have hrest : ∀ c2 ∈ rest, c2 < st1.nextId ∧ 0 < (st1.store c2).mass := by
        intro c2 hc2
        obtain ⟨hb, hmm⟩ := hc c2 (List.mem_cons_of_mem _ hc2)
        exact ⟨lt_of_lt_of_le hb t1, by rw [hm c2 hb]; exact hmm⟩
      have := ih st1 st2 h3 hrest
      simp only [List.length_cons]
      omega

theorem tickPlants_inv {w : World} {dt : ℝ} {w4 : World}
    (h : tickPlants w dt = some w4) :
    w4.store = w.store ∧ w4.clouds = w.clouds ∧ w4.rain = w.rain ∧
    w4.sunId = w.sunId ∧ w4.planetId = w.planetId ∧ w4.nextId = w.nextId := by
  unfold tickPlants at h
  cases hm : w.plants.mapM (fun p => tickPlant w p dt) with
  | none => rw [hm] at h; exact absurd h (by simp)
  | some ps =>
    rw [hm, Option.some_bind] at h
    simp only [Option.some.injEq] at h
    subst h
    exact ⟨rfl, rfl, rfl, rfl, rfl, rfl⟩

/-- Inversion of a successful tickWorld call: the cloud pass succeeded on
the post-kinematics world, and the result differs from its output only in
the rain pass and the plant list. -/
theorem tickWorld_inv {w : World} {dt : ℝ} {rand : Nat → ℝ} {k : Nat}
    {res : World} {k2 : Nat} (h : tickWorld w dt rand k = some (res, k2)) :
    ∃ w2, tickClouds (postKin w dt) dt rand k = some (w2, k2) ∧
      res.store = w2.store ∧ res.clouds = w2.clouds ∧
      res.sunId = w2.sunId ∧ res.planetId = w2.planetId ∧
      res.nextId = w2.nextId ∧
      res.rain = tickRain (w2.store w2.planetId) dt w2.rain := by
  unfold tickWorld at h
  cases htc : tickClouds (postKin w dt) dt rand k with
  | none => rw [htc] at h; exact absurd h (by simp)
  | some p =>
    rw [htc, Option.some_bind] at h
    obtain ⟨w2, kk⟩ := p
    cases htp : tickPlants
        { w2 with rain := tickRain (w2.store w2.planetId) dt w2.rain } dt with
    | none =>
      rw [htp] at h
      exact absurd h (by simp)
    | some w4 =>
      rw [htp, Option.some_bind] at h
      simp only [Option.some.injEq, Prod.mk.injEq] at h
      obtain ⟨hres, hkk⟩ := h
      subst hres
      subst hkk
      obtain ⟨h1, h2, h3, h4, h5, h6⟩ := tickPlants_inv htp
      exact ⟨w2, rfl, h1, h2, h4, h5, h6, h3⟩

theorem postKin_clouds (w : World) (dt : ℝ) : (postKin w dt).clouds = w.clouds := rfl

theorem postKin_nextId (w : World) (dt : ℝ) : (postKin w dt).nextId = w.nextId := rfl

theorem postKin_planetId (w : World) (dt : ℝ) :
    (postKin w dt).planetId = w.planetId := rfl

theorem postKin_sunId (w : World) (dt : ℝ) : (postKin w dt).sunId = w.sunId := rfl

theorem postKin_rain (w : World) (dt : ℝ) : (postKin w dt).rain = w.rain := rfl

theorem postKin_store (w : World) (dt : ℝ) :
    (postKin w dt).store = tickCelestialObjects w.store (kinematicsOrder w) dt := rfl

/-- Invariant: every live cloud identifier is below the allocation bound. -/
def IdsBounded (w : World) : Prop := ∀ x ∈ w.clouds, x < w.nextId

/-- A tick preserves the identifier bound, never lowers the allocation
bound, and never reverts a raining object below the bound to floating. -/
theorem tickWorld_pres {w : World} {dt : ℝ} {rand : Nat → ℝ} {k : Nat}
    {p : World × Nat} (hb : IdsBounded w) (h : tickWorld w dt rand k = some p) :
    IdsBounded p.1 ∧ w.nextId ≤ p.1.nextId ∧
    (∀ c, c < w.nextId → (w.store c).state = CloudState.raining →
      (p.1.store c).state = CloudState.raining) := by
  obtain ⟨w2, htc, hstore, hclouds, _, _, hnext, _⟩ := tickWorld_inv h
  have hb2 : ∀ x ∈ (postKin w dt).clouds, x < (postKin w dt).nextId := hb
  obtain ⟨n1, _, _, hcps, hmem, _, _, _⟩ := tickClouds_writes hb2 htc
  refine ⟨?_, ?_, ?_⟩
  · intro x hx
    rw [hclouds] at hx
    rw [hnext]
    rcases hmem x hx with hin | hrange
    · exact lt_of_lt_of_le (hb x hin) n1
    · exact hrange.2
  · rw [hnext]; exact n1
  · intro c hcw hcr
    rw [hstore]
    apply (hcps c hcw).st
    rw [postKin_store, (tco_misc dt c (kinematicsOrder w) w.store).2.1]
    exact hcr

/-! ## C3: friend sets across ticks -/

/-- C3, amended: friend sets are never cleared.  A tick only adds
elements to the friend set of any already-allocated heap object, so every
friendship from a previous tick persists whether or not the current
proximity test re-derives it. -/
theorem C3_friends_never_cleared (w : World) (dt : ℝ) (rand : Nat → ℝ)
    (k : Nat) (p : World × Nat) (c : Nat)
    (hbound : IdsBounded w) (hc : c < w.nextId)
    (h : tickWorld w dt rand k = some p) :
    (w.store c).friends ⊆ (p.1.store c).friends := by
  obtain ⟨w2, htc, hstore, _, _, _, _, _⟩ := tickWorld_inv h
  have hkin : ((postKin w dt).store c).friends = (w.store c).friends := by
    rw [postKin_store]
    exact (tco_misc dt c (kinematicsOrder w) w.store).1
  have hbound2 : ∀ x ∈ (postKin w dt).clouds, x < (postKin w dt).nextId := hbound
  obtain ⟨_, _, _, hcps, _, _, _, _⟩ := tickClouds_writes hbound2 htc
  rw [hstore, ← hkin]
  exact (hcps c hc).fr

/-! ## C10: an empty cloud population is permanent -/

theorem clusterGroup_nil (s : Nat → Obj) : clusterGroup s [] = some s := rfl

theorem clusterClouds_of_empty_groups :
    ∀ (groups : List (List Nat)) (s : Nat → Obj), (∀ g ∈ groups, g = []) →
      clusterClouds s groups = some s := by
  intro groups
  induction groups with
  | nil => intro s _; rfl
  | cons g rest ih =>
    intro s hg
    have hgnil : g = [] := hg g (List.mem_cons_self _ _)
    subst hgnil
    have h2 : clusterClouds s ([] :: rest) = clusterClouds s rest := rfl
    rw [h2]
    exact ih s (fun g2 hg2 => hg g2 (List.mem_cons_of_mem _ hg2))

theorem clusterStore_nil (s : Nat → Obj) : clusterStore s [] = some s := by
  unfold clusterStore
  apply clusterClouds_of_empty_groups
  intro g hg
  unfold getCloudGroups at hg
  rw [List.mem_map] at hg
  obtain ⟨be, _, hbe⟩ := hg
  exact hbe.symm

/-- With no clouds the per-cloud pass does nothing: the spawn check sits
inside the loop over the pre-tick cloud list, so it is never reached. -/
theorem tickClouds_nil (w : World) (dt : ℝ) (rand : Nat → ℝ) (k : Nat)
    (hempty : w.clouds = []) :
    tickClouds w dt rand k = some ({ w with clouds := [] }, k) := by
  unfold tickClouds
  rw [hempty, clusterStore_nil, Option.some_bind]
  rfl

/-- C10: when the cloud collection is empty the spawn check (inside the
per-cloud loop) is never reached, so an empty cloud population persists
through every reachable later state. -/
theorem C10_empty_clouds_preserved (wStart wEnd : World)
    (h : Reaches wStart wEnd) (hempty : wStart.clouds = []) :
    wEnd.clouds = [] := by
  induction h with
  | refl => exact hempty
  | tick wa wb dt rand k k2 hreach htick ih =>
    obtain ⟨wmid, htc, _, hclouds, _, _, _, _⟩ := tickWorld_inv htick
    have hmid : (postKin wa dt).clouds = [] := by rw [postKin_clouds]; exact ih
    rw [tickClouds_nil _ dt rand k hmid] at htc
    simp only [Option.some.injEq, Prod.mk.injEq] at htc
    rw [hclouds, ← htc.1]

/-! ## Kinematics fixed points at zero delta -/

/-- An object whose rotations are already wrapped and whose location is
consistent with its orbit, the orbit target being orbit-free: the
kinematics pass with a zero delta leaves it unchanged. -/
def KinFixed (store : Nat → Obj) (i : Nat) : Prop :=
  0 ≤ (store i).rotation ∧ (store i).rotation < Real.pi * 2 ∧
  ∀ orb ∈ (store i).orbit, 0 ≤ orb.rotation ∧ orb.rotation < Real.pi * 2 ∧
    (store orb.target).orbit = none ∧
    (store i).location = vectorMath.add (orbitPoint orb.shape orb.rotation)
      ((store orb.target).location)

theorem tickCelestial_fixed {store : Nat → Obj} {j : Nat}
    (h : KinFixed store j) : tickCelestial store j 0 = store := by
  obtain ⟨h0, h1, h2⟩ := h
  have e1 : jsMod ((store j).rotation + (store j).rotationalVelocity * 0)
      (Real.pi * 2) = (store j).rotation := by
    rw [mul_zero, add_zero]
    exact jsMod_eq_self h0 h1
  unfold tickCelestial
  rcases horb : (store j).orbit with _ | orb
  · simp only [horb, e1]
    rw [← horb]
    exact Function.update_eq_self j store
  · obtain ⟨ho0, ho1, _, hloc⟩ := h2 orb horb
    have e2 : jsMod (orb.rotation + orb.rotationalVelocity * 0) (Real.pi * 2) =
        orb.rotation := by
      rw [mul_zero, add_zero]
      exact jsMod_eq_self ho0 ho1
    simp only [horb, e1, e2, ← hloc]
    have horbEta : (⟨orb.rotation, orb.rotationalVelocity, orb.target,
        orb.shape⟩ : Orbit) = orb := rfl
    rw [horbEta, ← horb]
    exact Function.update_eq_self j store

theorem tco_fixed : ∀ (order : List Nat) (store : Nat → Obj),
    (∀ i ∈ order, KinFixed store i) →
    tickCelestialObjects store order 0 = store := by
  intro order
  induction order with
  | nil => intro store _; rfl
  | cons j rest ih =>
    intro store h
    rw [tco_cons, tickCelestial_fixed (h j (List.mem_cons_self _ _))]
    exact ih store (fun i hi => h i (List.mem_cons_of_mem _ hi))

theorem postKin_fixed {w : World}
    (h : ∀ i ∈ kinematicsOrder w, KinFixed w.store i) : postKin w 0 = w := by
  unfold postKin
  rw [tco_fixed (kinematicsOrder w) w.store h]

/-! ## A concrete empty-cloud world, fixed under a zero-delta tick -/

/-- The constant one-half random stream: every draw fails both the
emission check and the spawn check. -/
def halfRand : Nat → ℝ := fun _ => 1 / 2

/-- The sun of the concrete worlds: on the elliptical orbit of the source
initial state, at phase zero, around the planet (identifier 1). -/
def sunW : Obj :=
  { location := (175, 0), rotation := 0, rotationalVelocity := 0,
    shape := Shape.circle 20,
    orbit := some ⟨0, Real.pi * 2 / 2000, 1, Shape.ellipse 175 200⟩,
    mass := 0, state := CloudState.floating, friends := ∅ }

/-- The planet of the concrete worlds: circle of radius 3 at the origin,
no orbit, as in the source initial state. -/
def planetW : Obj :=
  { location := (0, 0), rotation := 0, rotationalVelocity := Real.pi * 2 / 10000,
    shape := Shape.circle 3, orbit := none, mass := 0,
    state := CloudState.floating, friends := ∅ }

/-- A world with no clouds at all. -/
def Wempty : World :=
  { store := fun i => if i = 0 then sunW else planetW,
    sunId := 0, planetId := 1, clouds := [], rain := [], ground := 0,
    plants := [], nextId := 5 }

theorem Wempty_kinFixed : ∀ i ∈ kinematicsOrder Wempty, KinFixed Wempty.store i := by
  intro i hi
  have h2pi := two_pi_pos
  fin_cases hi
  · refine ⟨le_refl 0, h2pi, ?_⟩
    intro orb horb
    have horb2 : orb = (⟨0, Real.pi * 2 / 2000, 1, Shape.ellipse 175 200⟩ : Orbit) := by
      have hs : (Wempty.store Wempty.sunId).orbit =
          some ⟨0, Real.pi * 2 / 2000, 1, Shape.ellipse 175 200⟩ := rfl
      rw [hs] at horb
      symm
      simpa using horb
    subst horb2
    refine ⟨le_refl 0, h2pi, rfl, ?_⟩
    show ((175 : ℝ), (0 : ℝ)) = vectorMath.add
      (orbitPoint (Shape.ellipse 175 200) 0) ((0 : ℝ), (0 : ℝ))
    unfold orbitPoint ellipseCalcRotationalPoint vectorMath.add
    norm_num
  · exact ⟨le_refl 0, h2pi, fun orb horb => absurd horb (by simp [Wempty, planetW])⟩

theorem postKin_Wempty : postKin Wempty 0 = Wempty := postKin_fixed Wempty_kinFixed

theorem tickWorld_Wempty (rand : Nat → ℝ) :
    tickWorld Wempty 0 rand 0 = some (Wempty, 0) := by
  unfold tickWorld
  rw [postKin_Wempty, tickClouds_nil Wempty 0 rand 0 rfl, Option.some_bind]
  rfl

theorem C10_empty_clouds_preserved_witness :
    Wempty.clouds = [] ∧ Wempty.clouds = [] :=
  ⟨rfl, C10_empty_clouds_preserved Wempty Wempty
    (Reaches.tick Wempty Wempty Wempty 0 halfRand 0 0 (Reaches.refl Wempty)
      (tickWorld_Wempty halfRand))
    rfl⟩

/-! ## C5: the rain threshold transition and its irreversibility -/

theorem thresholdStore_raining {st : TickCloudsState} {c : Nat}
    (hm : collectiveMass st.store c > rainThreshold) :
    ∀ x, (x = c ∨ x ∈ (st.store c).friends) →
      (thresholdStore st c x).state = CloudState.raining := by
  intro x hx
  unfold thresholdStore
  rw [if_pos hm, setFriendsRaining_apply]
  by_cases hmem : x ∈ (st.store c).friends
  · rw [if_pos hmem]
  · rw [if_neg hmem]
    rcases hx with rfl | hmem2
    · unfold setObj
      rw [Function.update_same]
    · exact absurd hmem2 hmem

/-- After the rain phase, the state of every object is the state that the
threshold transition gave it (the emission only changes a mass). -/
theorem rainPhase_state_eq {dt : ℝ} {rand : Nat → ℝ} {st : TickCloudsState}
    {c : Nat} {stMid : TickCloudsState}
    (h : rainPhase dt rand st c = some stMid) :
    ∀ x, (stMid.store x).state = (thresholdStore st c x).state := by
  intro x
  unfold rainPhase at h
  by_cases hst : (thresholdStore st c c).state = CloudState.raining
  · rw [if_pos hst] at h
    cases hsh : (orbitOf (thresholdStore st c c)).shape with
    | ellipse a b =>
      simp only [hsh] at h
      exact absurd h (by simp)
    | circle cloudRadius =>
      simp only [hsh] at h
      by_cases hemit : rand st.randIdx <
          emissionProbability dt (collectiveMass st.store c)
      · rw [if_pos hemit] at h
        simp only [Option.some.injEq] at h
        subst h
        show (emitStore st c x).state = _
        unfold emitStore setObj
        by_cases hxc : x = c
        · subst hxc
          rw [Function.update_same]
        · rw [Function.update_noteq hxc]
      · rw [if_neg hemit] at h
        simp only [Option.some.injEq] at h
        subst h
        rfl
  · rw [if_neg hst] at h
    simp only [Option.some.injEq] at h
    subst h
    rfl

/-- A per-cloud iteration whose collective mass exceeds the threshold
leaves the processed cloud and all its friends raining. -/
theorem tickCloudStep_threshold {dt : ℝ} {rand : Nat → ℝ} {n pid : Nat}
    {st st2 : TickCloudsState} {c : Nat}
    (h : tickCloudStep dt rand n pid st c = some st2)
    (hm : collectiveMass st.store c > rainThreshold) :
    ∀ x, x < st.nextId → (x = c ∨ x ∈ (st.store c).friends) →
      (st2.store x).state = CloudState.raining := by
  intro x hx hxc
  unfold tickCloudStep at h
  cases hrp : rainPhase dt rand st c with
  | none => rw [hrp] at h; exact absurd h (by simp)
  | some stMid =>
    rw [hrp, Option.some_bind] at h
    have hnext : stMid.nextId = st.nextId := (rainPhase_writes hrp).1
    have hsp := (spawnStep_writes h).2.1 x (by rw [hnext]; exact hx)
    rw [hsp, rainPhase_state_eq hrp x]
    exact thresholdStore_raining hm x hxc

theorem foldlM_nextId_mono {dt : ℝ} {rand : Nat → ℝ} {n pid : Nat} :
    ∀ (l : List Nat) (st st2 : TickCloudsState),
      l.foldlM (tickCloudStep dt rand n pid) st = some st2 →
      st.nextId ≤ st2.nextId := fun l st st2 h =>
  foldlM_induction (fun s => st.nextId ≤ s.nextId) _ l
    (fun _ _ _ hQ _ hs => le_trans hQ (tickCloudStep_writes hs).1)
    st st2 h (le_refl _)

theorem foldlM_raining_pres {dt : ℝ} {rand : Nat → ℝ} {n pid : Nat} :
    ∀ (l : List Nat) (st st2 : TickCloudsState) (x : Nat),
      l.foldlM (tickCloudStep dt rand n pid) st = some st2 → x < st.nextId →
      (st.store x).state = CloudState.raining →
      (st2.store x).state = CloudState.raining := by
  intro l st st2 x h hx hr
  exact (foldlM_induction
    (fun s => x < s.nextId ∧ (s.store x).state = CloudState.raining) _ l
    (fun s a s2 hQ _ hs => ⟨lt_of_lt_of_le hQ.1 (tickCloudStep_writes hs).1,
      ((tickCloudStep_writes hs).2.1 x hQ.1).st hQ.2⟩) st st2 h ⟨hx, hr⟩).2

/-- C5: when the collective mass computed for a cloud during the
per-cloud loop exceeds the threshold 30, that cloud and all its direct
friends are raining at the end of that tick; and once an object is
raining, it is raining in every reachable later state. -/
theorem C5_rain_threshold_and_irreversible :
    (∀ (w : World) (dt : ℝ) (rand : Nat → ℝ) (k : Nat) (p : World × Nat)
       (store0 : Nat → Obj) (l1 l2 : List Nat) (c : Nat) (st1 : TickCloudsState),
      tickWorld w dt rand k = some p →
      clusterStore ((postKin w dt).store) w.clouds = some store0 →
      w.clouds = l1 ++ c :: l2 →
      l1.foldlM (tickCloudStep dt rand w.clouds.length w.planetId)
        (initTickCloudsState store0 (postKin w dt) k) = some st1 →
      collectiveMass st1.store c > rainThreshold →
      c < w.nextId →
      (p.1.store c).state = CloudState.raining ∧
      ∀ f ∈ (st1.store c).friends, f < w.nextId →
        (p.1.store f).state = CloudState.raining) ∧
    (∀ (wStart wEnd : World) (c : Nat),
      Reaches wStart wEnd → IdsBounded wStart → c < wStart.nextId →
      (wStart.store c).state = CloudState.raining →
      (wEnd.store c).state = CloudState.raining) := by
  constructor
  · intro w dt rand k p store0 l1 l2 c st1 h hcs hsplit hfold1 hm hclt
    obtain ⟨w2, htc, hstore, _, _, _, _, _⟩ := tickWorld_inv h
    unfold tickClouds at htc
    rw [show (postKin w dt).clouds = w.clouds from rfl,
      show (postKin w dt).planetId = w.planetId from rfl] at htc
    rw [hcs, Option.some_bind] at htc
    cases hfold : w.clouds.foldlM (tickCloudStep dt rand w.clouds.length w.planetId)
        (initTickCloudsState store0 (postKin w dt) k) with
    | none => rw [hfold] at htc; exact absurd htc (by simp)
    | some stF =>
      rw [hfold, Option.some_bind] at htc
      simp only [Option.some.injEq, Prod.mk.injEq] at htc
      obtain ⟨hw2, _⟩ := htc
      have hw2store : w2.store = stF.store := by rw [← hw2]
      rw [hsplit] at hfold1
      rw [hsplit, List.foldlM_append, hfold1] at hfold
      have hfold2 : (c :: l2).foldlM
          (tickCloudStep dt rand (l1 ++ c :: l2).length w.planetId) st1 =
          some stF := hfold
      rw [List.foldlM_cons] at hfold2
      cases hstep : tickCloudStep dt rand (l1 ++ c :: l2).length w.planetId st1 c with
      | none => rw [hstep] at hfold2; exact absurd hfold2 (by simp)
      | some st2 =>
        rw [hstep] at hfold2
        have hfold3 : l2.foldlM
            (tickCloudStep dt rand (l1 ++ c :: l2).length w.planetId) st2 =
            some stF := hfold2
        have hn1 : w.nextId ≤ st1.nextId := foldlM_nextId_mono l1 _ st1 hfold1
        have hn2 : st1.nextId ≤ st2.nextId := (tickCloudStep_writes hstep).1
        have hstepRain := tickCloudStep_threshold hstep hm
        constructor
        · have h2 : (st2.store c).state = CloudState.raining :=
            hstepRain c (lt_of_lt_of_le hclt hn1) (Or.inl rfl)
          have h3 : (stF.store c).state = CloudState.raining :=
            foldlM_raining_pres l2 st2 stF c hfold3
              (lt_of_lt_of_le (lt_of_lt_of_le hclt hn1) hn2) h2
          rw [hstore, hw2store]
          exact h3
        · intro f hf hflt
          have h2 : (st2.store f).state = CloudState.raining :=
            hstepRain f (lt_of_lt_of_le hflt hn1) (Or.inr hf)
          have h3 : (stF.store f).state = CloudState.raining :=
            foldlM_raining_pres l2 st2 stF f hfold3
              (lt_of_lt_of_le (lt_of_lt_of_le hflt hn1) hn2) h2
          rw [hstore, hw2store]
          exact h3
  · have main : ∀ wS wE, Reaches wS wE → ∀ c, IdsBounded wS → c < wS.nextId →
        (wS.store c).state = CloudState.raining →
        IdsBounded wE ∧ c < wE.nextId ∧
        (wE.store c).state = CloudState.raining := by
      intro wS wE hreach
      induction hreach with
      | refl => intro c hb hc hr; exact ⟨hb, hc, hr⟩
      | tick wa wb dt rand k k2 hr2 htick ih =>
        intro c hb hc hrain
        obtain ⟨hb2, hc2, hr2b⟩ := ih c hb hc hrain
        obtain ⟨hb3, hn3, hpres⟩ := tickWorld_pres hb2 htick
        exact ⟨hb3, lt_of_lt_of_le hc2 hn3, hpres c hc2 hr2b⟩
    exact fun wS wE c hreach hb hc hr => (main wS wE hreach c hb hc hr).2.2

/-! ## C6: rotations stay in one turn -/

/-- Nonnegative rotations and angular velocities, spin and orbit. -/
def NonnegRot (o : Obj) : Prop :=
  0 ≤ o.rotation ∧ 0 ≤ o.rotationalVelocity ∧
  ∀ orb ∈ o.orbit, 0 ≤ orb.rotation ∧ 0 ≤ orb.rotationalVelocity

/-- Both rotation fields wrapped into one full turn. -/
def RotFacts (o : Obj) : Prop :=
  0 ≤ o.rotation ∧ o.rotation < Real.pi * 2 ∧
  ∀ orb ∈ o.orbit, 0 ≤ orb.rotation ∧ orb.rotation < Real.pi * 2

theorem wrapAngle_mem {r v dt : ℝ} (hr : 0 ≤ r) (hv : 0 ≤ v) (hdt : 0 ≤ dt) :
    0 ≤ wrapAngle r v dt ∧ wrapAngle r v dt < Real.pi * 2 := by
  have h : 0 ≤ r + v * dt := add_nonneg hr (mul_nonneg hv hdt)
  exact ⟨jsMod_nonneg h two_pi_pos, jsMod_lt h two_pi_pos⟩

theorem tickCelestial_nonneg {store : Nat → Obj} {j : Nat} {dt : ℝ}
    (hdt : 0 ≤ dt) (hnn : ∀ i, NonnegRot (store i)) :
    ∀ i, NonnegRot ((tickCelestial store j dt) i) := by
  intro i
  by_cases hij : i = j
  · subst hij
    obtain ⟨h1, h2, h3⟩ := hnn i
    rcases horb : (store i).orbit with _ | orb
    · rw [tickCelestial_apply_self_none dt horb]
      exact ⟨(wrapAngle_mem h1 h2 hdt).1, h2, fun orb ho => h3 orb ho⟩
    · rw [tickCelestial_apply_self_some dt horb]
      obtain ⟨ho1, ho2⟩ := h3 orb (by rw [horb]; rfl)
      refine ⟨(wrapAngle_mem h1 h2 hdt).1, h2, ?_⟩
      intro orb2 ho2m
      have : orb2 = { orb with rotation := wrapAngle orb.rotation orb.rotationalVelocity dt } := by
        symm
        simpa using ho2m
      subst this
      exact ⟨(wrapAngle_mem ho1 ho2 hdt).1, ho2⟩
  · rw [tickCelestial_apply_ne dt hij]
    exact hnn i

theorem tickCelestial_rotFacts_self {store : Nat → Obj} {j : Nat} {dt : ℝ}
    (hdt : 0 ≤ dt) (hnn : NonnegRot (store j)) :
    RotFacts ((tickCelestial store j dt) j) := by
  obtain ⟨h1, h2, h3⟩ := hnn
  rcases horb : (store j).orbit with _ | orb
  · rw [tickCelestial_apply_self_none dt horb]
    obtain ⟨hw1, hw2⟩ := wrapAngle_mem h1 h2 hdt
    refine ⟨hw1, hw2, ?_⟩
    intro orb ho
    rw [show ({ store j with rotation := wrapAngle (store j).rotation (store j).rotationalVelocity dt } : Obj).orbit = (store j).orbit from rfl, horb] at ho
    exact absurd ho (by simp)
  · rw [tickCelestial_apply_self_some dt horb]
    obtain ⟨hw1, hw2⟩ := wrapAngle_mem h1 h2 hdt
    obtain ⟨ho1, ho2⟩ := h3 orb (by rw [horb]; rfl)
    refine ⟨hw1, hw2, ?_⟩
    intro orb2 ho2m
    have : orb2 = { orb with rotation := wrapAngle orb.rotation orb.rotationalVelocity dt } := by
      symm
      simpa using ho2m
    subst this
    exact ⟨(wrapAngle_mem ho1 ho2 hdt).1, (wrapAngle_mem ho1 ho2 hdt).2⟩

theorem tco_rotFacts {dt : ℝ} (hdt : 0 ≤ dt) :
    ∀ (order : List Nat) (store : Nat → Obj), (∀ i, NonnegRot (store i)) →
      (∀ i, NonnegRot ((tickCelestialObjects store order dt) i)) ∧
      (∀ i ∈ order, RotFacts ((tickCelestialObjects store order dt) i)) := by
  intro order
  induction order with
  | nil =>
    intro store h
    exact ⟨h, fun i hi => absurd hi (List.not_mem_nil i)⟩
  | cons j rest ih =>
    intro store h
    have hS1 : ∀ i, NonnegRot ((tickCelestial store j dt) i) :=
      tickCelestial_nonneg hdt h
    obtain ⟨ihnn, ihmem⟩ := ih (tickCelestial store j dt) hS1
    rw [tco_cons]
    refine ⟨ihnn, ?_⟩
    intro i hi
    rcases List.mem_cons.1 hi with rfl | hmem
    · by_cases hjr : i ∈ rest
      · exact ihmem i hjr
      · rw [tco_not_mem dt rest _ hjr]
        exact tickCelestial_rotFacts_self hdt (h i)
    · exact ihmem i hmem

theorem rotFacts_of_cloudPassStep {a b : Obj} (h : CloudPassStep a b)
    (hf : RotFacts a) : RotFacts b := by
  obtain ⟨h1, h2, h3⟩ := hf
  refine ⟨h.rot ▸ h1, h.rot ▸ h2, ?_⟩
  intro orb ho
  have hmap := h.orbRot
  rw [Option.mem_def] at ho
  rw [ho] at hmap
  cases ha : a.orbit with
  | none =>
    rw [ha] at hmap
    exact absurd hmap (by simp)
  | some oa =>
    rw [ha] at hmap
    simp only [Option.map_some', Option.some.injEq] at hmap
    obtain ⟨hr1, hr2⟩ := h3 oa (by rw [ha]; rfl)
    rw [← hmap] at hr1 hr2
    exact ⟨hr1, hr2⟩

/-- C6: after a tick with a nonnegative delta from a state with
nonnegative, forward-spinning rotations, the spin rotation and the orbit
rotation of the sun, the planet and every live cloud lie in one turn. -/
theorem C6_rotation_range (w : World) (dt : ℝ) (rand : Nat → ℝ) (k : Nat)
    (p : World × Nat)
    (h : tickWorld w dt rand k = some p)
    (hdt : 0 ≤ dt)
    (hrand : ∀ n, 0 ≤ rand n ∧ rand n < 1)
    (hnn : ∀ i, NonnegRot (w.store i))
    (hb : IdsBounded w)
    (hsun : w.sunId < w.nextId) (hplanet : w.planetId < w.nextId) :
    ∀ i ∈ p.1.sunId :: p.1.planetId :: p.1.clouds, RotFacts (p.1.store i) := by
  obtain ⟨w2, htc, hstore, hclouds, hsunId, hplanetId, _, _⟩ := tickWorld_inv h
  obtain ⟨hkinNN, hkinMem⟩ := tco_rotFacts hdt (kinematicsOrder w) w.store hnn
  have hb2 : ∀ x ∈ (postKin w dt).clouds, x < (postKin w dt).nextId := hb
  obtain ⟨n1, hsun2, hplanet2, hcps, hmem, hspawn, _, _⟩ := tickClouds_writes hb2 htc
  have htransfer : ∀ i, i ∈ kinematicsOrder w → i < w.nextId →
      RotFacts (w2.store i) := by
    intro i hio hilt
    exact rotFacts_of_cloudPassStep (hcps i hilt) (hkinMem i hio)
  have hspawnFacts : ∀ x, w.nextId ≤ x → x < w2.nextId → RotFacts (w2.store x) := by
    intro x hx1 hx2
    obtain ⟨hr0, horb⟩ := hspawn x hx1 hx2
    refine ⟨by rw [hr0], by rw [hr0]; exact two_pi_pos, ?_⟩
    intro orb ho
    obtain ⟨mm, hrot⟩ := horb orb ho
    obtain ⟨hm0, hm1⟩ := hrand mm
    constructor
    · rw [hrot]
      have := Real.pi_pos
      nlinarith
    · rw [hrot]
      have := Real.pi_pos
      nlinarith
  intro i hi
  rw [hstore]
  rcases List.mem_cons.1 hi with rfl | hi2
  · rw [hsunId, hsun2, postKin_sunId]
    exact htransfer w.sunId (List.mem_cons_self _ _) hsun
  · rcases List.mem_cons.1 hi2 with rfl | hi3
    · rw [hplanetId, hplanet2, postKin_planetId]
      exact htransfer w.planetId
        (List.mem_cons_of_mem _ (List.mem_cons_self _ _)) hplanet
    · rw [hclouds] at hi3
      rcases hmem i hi3 with hin | hrange
      · rw [postKin_clouds] at hin
        exact htransfer i
          (List.mem_cons_of_mem _ (List.mem_cons_of_mem _ hin)) (hb i hin)
      · exact hspawnFacts i hrange.1 hrange.2

/-! ## C7: the rain pass never normalizes a zero vector -/

theorem magnitude_calcRotationalPoint (ρ θ : ℝ) (hρ : 0 ≤ ρ) :
    vectorMath.magnitude (calcRotationalPoint ρ θ) = ρ := by
  unfold vectorMath.magnitude calcRotationalPoint
  rw [show (ρ * Real.cos θ) ^ 2 + (ρ * Real.sin θ) ^ 2 =
    ρ ^ 2 * ((Real.sin θ) ^ 2 + (Real.cos θ) ^ 2) by ring,
    Real.sin_sq_add_cos_sq, mul_one, Real.sqrt_sq hρ]

theorem magnitude_sub_add_add (L cp off : Vector2d) :
    vectorMath.magnitude (vectorMath.subtract L
      (vectorMath.add (vectorMath.add cp L) off)) =
    vectorMath.magnitude (vectorMath.add cp off) := by
  unfold vectorMath.magnitude vectorMath.subtract vectorMath.add
  congr 1
  ring

theorem addCloudJitter_eq_add (loc : Vector2d) (a b : ℝ) :
    addCloudJitter loc a b =
      vectorMath.add loc ((a - 0.5) * 1.0, (b - 0.5) * 0.3) := rfl

theorem jitterOffset_bound {a b : ℝ} (ha0 : 0 ≤ a) (ha1 : a ≤ 1)
    (hb0 : 0 ≤ b) (hb1 : b ≤ 1) :
    vectorMath.magnitude (((a - 0.5) * 1.0, (b - 0.5) * 0.3) : Vector2d) ≤ 0.6 := by
  unfold vectorMath.magnitude
  have h1 : ((a - 0.5) * 1.0) ^ 2 + ((b - 0.5) * 0.3) ^ 2 ≤ 0.36 := by nlinarith
  calc Real.sqrt (((a - 0.5) * 1.0) ^ 2 + ((b - 0.5) * 0.3) ^ 2)
      ≤ Real.sqrt 0.36 := Real.sqrt_le_sqrt h1
    _ = 0.6 := by
        rw [show (0.36 : ℝ) = 0.6 ^ 2 by norm_num, Real.sqrt_sq (by norm_num)]

theorem magnitude_pair_zero : vectorMath.magnitude ((0, 0) : Vector2d) = 0 := by
  unfold vectorMath.magnitude
  norm_num

/-- C7: during a tick from a state satisfying the program invariants
(every rain particle strictly beyond the planet radius, the planet
orbit-free, every cloud on a circular orbit of radius at least one around
the planet), every rain particle that reaches the rain pass is away from
the planet center, so the vector normalized by unitVector is nonzero. -/
theorem C7_rain_pass_guarded (w : World) (dt : ℝ) (rand : Nat → ℝ) (k : Nat)
    (w2 : World) (k2 : Nat)
    (htc : tickClouds (postKin w dt) dt rand k = some (w2, k2))
    (R : ℝ) (hR : 0 < R)
    (hpnone : (w.store w.planetId).orbit = none)
    (hb : IdsBounded w) (hplanet : w.planetId < w.nextId)
    (hrand : ∀ n, 0 ≤ rand n ∧ rand n ≤ 1)
    (hrain : ∀ r ∈ w.rain, R < vectorMath.magnitude
      (vectorMath.subtract r.location ((w.store w.planetId).location)))
    (htarget : ∀ i ∈ kinematicsOrder w, ∀ orb, (w.store i).orbit = some orb →
      (w.store orb.target).orbit = none)
    (hclouds : ∀ c ∈ w.clouds, ∀ orb, (w.store c).orbit = some orb →
      orb.target = w.planetId ∧ ∃ ρ, orb.shape = Shape.circle ρ ∧ 1 ≤ ρ)
    (hcloudsorb : ∀ c ∈ w.clouds, (w.store c).orbit ≠ none) :
    ∀ r ∈ w2.rain,
      vectorMath.subtract ((w2.store w2.planetId).location) r.location ≠ (0, 0) := by
  have hb2 : ∀ x ∈ (postKin w dt).clouds, x < (postKin w dt).nextId := hb
  obtain ⟨n1, _, hplanetEq, hcps, _, _, hrainTrack, _⟩ := tickClouds_writes hb2 htc
  have hS1pnone : (((postKin w dt).store) w.planetId).orbit = none := by
    rw [postKin_store]
    exact tco_none_pres dt _ _ hpnone
  have hS1ploc : (((postKin w dt).store) w.planetId).location =
      (w.store w.planetId).location := by
    rw [postKin_store]
    exact tco_loc_of_none dt _ _ hpnone
  have hplanetLoc : (w2.store w2.planetId).location =
      (w.store w.planetId).location := by
    rw [hplanetEq, postKin_planetId, (hcps w.planetId hplanet).loc]
    exact hS1ploc
  intro r hr heq
  rw [hplanetLoc] at heq
  have hmag0 : vectorMath.magnitude (vectorMath.subtract
      ((w.store w.planetId).location) r.location) = 0 := by
    rw [heq]
    exact magnitude_pair_zero
  rcases hrainTrack r hr with hold | ⟨c, hc, a, b, hloc⟩
  · rw [postKin_rain] at hold
    have hdist := hrain r hold
    have hsymm : vectorMath.magnitude (vectorMath.subtract r.location
        ((w.store w.planetId).location)) = vectorMath.magnitude
        (vectorMath.subtract ((w.store w.planetId).location) r.location) := by
      unfold vectorMath.magnitude vectorMath.subtract
      congr 1
      ring
    rw [hsymm, hmag0] at hdist
    linarith
  · rw [postKin_clouds] at hc
    obtain ⟨orb, horb⟩ : ∃ orb, (w.store c).orbit = some orb := by
      cases ho : (w.store c).orbit with
      | none => exact absurd ho (hcloudsorb c hc)
      | some o => exact ⟨o, rfl⟩
    obtain ⟨htgt, ρ, hshape, hρ⟩ := hclouds c hc orb horb
    have hcmem : c ∈ kinematicsOrder w :=
      List.mem_cons_of_mem _ (List.mem_cons_of_mem _ hc)
    have hmisc := tco_misc dt c (kinematicsOrder w) w.store
    have htargetMap : (((postKin w dt).store c).orbit).map Orbit.target =
        some orb.target := by
      rw [postKin_store, hmisc.2.2.2.2.2.1, horb]
      rfl
    have hshapeMap : (((postKin w dt).store c).orbit).map Orbit.shape =
        some orb.shape := by
      rw [postKin_store, hmisc.2.2.2.2.2.2.1, horb]
      rfl
    obtain ⟨orb2, horb2⟩ : ∃ orb2, (((postKin w dt).store c)).orbit = some orb2 := by
      cases ho2 : (((postKin w dt).store c)).orbit with
      | none => rw [ho2] at htargetMap; exact absurd htargetMap (by simp)
      | some o2 => exact ⟨o2, rfl⟩
    rw [horb2] at htargetMap hshapeMap
    simp only [Option.map_some', Option.some.injEq] at htargetMap hshapeMap
    have hS1cloc := tco_orbit_location w.store (kinematicsOrder w) dt htarget
      c hcmem orb2 (by rw [← postKin_store]; exact horb2)
    rw [← postKin_store] at hS1cloc
    rw [htargetMap, htgt] at hS1cloc
    rw [hshapeMap, hshape] at hS1cloc
    have hS1cloc2 : ((postKin w dt).store c).location = vectorMath.add
        (calcRotationalPoint ρ orb2.rotation) ((w.store w.planetId).location) := by
      rw [hS1cloc, hS1ploc]
      rfl
    obtain ⟨ha0, ha1⟩ := hrand a
    obtain ⟨hb0, hb1⟩ := hrand b
    have hlocfull : r.location = vectorMath.add (vectorMath.add
        (calcRotationalPoint ρ orb2.rotation) ((w.store w.planetId).location))
        ((rand a - 0.5) * 1.0, (rand b - 0.5) * 0.3) := by
      rw [hloc, addCloudJitter_eq_add, hS1cloc2]
    have hmagEq : vectorMath.magnitude (vectorMath.subtract
        ((w.store w.planetId).location) r.location) =
        vectorMath.magnitude (vectorMath.add (calcRotationalPoint ρ orb2.rotation)
          ((rand a - 0.5) * 1.0, (rand b - 0.5) * 0.3)) := by
      rw [hlocfull]
      exact magnitude_sub_add_add _ _ _
    have hge := magnitude_add_ge (calcRotationalPoint ρ orb2.rotation)
      (((rand a - 0.5) * 1.0, (rand b - 0.5) * 0.3) : Vector2d)
    rw [magnitude_calcRotationalPoint ρ orb2.rotation (by linarith)] at hge
    have hjit := jitterOffset_bound ha0 ha1 hb0 hb1
    rw [hmagEq] at hmag0
    linarith

/-! ## C4: a zero-delta tick -/

theorem tickRain_zero (planet : Obj) (rainList : List Rain)
    (hkeep : ∀ r ∈ rainList, numGtShape (vectorMath.magnitude
      (vectorMath.subtract r.location planet.location)) planet.shape) :
    (tickRain planet 0 rainList).length = rainList.length := by
  unfold tickRain
  have hloc : ∀ r, (tickRainOne planet 0 r).location = r.location := by
    intro r
    show vectorMath.add r.location (vectorMath.multiply _ 0) = r.location
    unfold vectorMath.add vectorMath.multiply
    exact Prod.ext (by ring) (by ring)
  have hall : List.filter (fun r => decide (numGtShape (vectorMath.magnitude
      (vectorMath.subtract r.location planet.location)) planet.shape))
      (List.map (tickRainOne planet 0) rainList) =
      List.map (tickRainOne planet 0) rainList := by
    rw [List.filter_eq_self]
    intro rr hrr
    rw [List.mem_map] at hrr
    obtain ⟨r0, hr0, hr0eq⟩ := hrr
    subst hr0eq
    simp only [decide_eq_true_eq]
    rw [hloc r0]
    exact hkeep r0 hr0
  rw [hall, List.length_map]

theorem tickClouds_count {w : World} {rand : Nat → ℝ} {k : Nat}
    {w2 : World} {k2 : Nat}
    (hrand : ∀ mm, 0 ≤ rand mm) (hb : IdsBounded w)
    (hmass : ∀ c ∈ w.clouds, 0 < (w.store c).mass)
    (h : tickClouds w 0 rand k = some (w2, k2)) :
    w.clouds.length ≤ w2.clouds.length := by
  unfold tickClouds at h
  cases hcs : clusterStore w.store w.clouds with
  | none => rw [hcs] at h; exact absurd h (by simp)
  | some store0 =>
    rw [hcs, Option.some_bind] at h
    have hcluster : ∀ i, ClusterStep (w.store i) (store0 i) :=
      clusterClouds_writes (by unfold clusterStore at hcs; exact hcs)
    cases hfold : w.clouds.foldlM (tickCloudStep 0 rand w.clouds.length w.planetId)
        (initTickCloudsState store0 w k) with
    | none => rw [hfold] at h; exact absurd h (by simp)
    | some st =>
      rw [hfold, Option.some_bind] at h
      simp only [Option.some.injEq, Prod.mk.injEq] at h
      obtain ⟨hw2, _⟩ := h
      have hcond : ∀ c ∈ w.clouds, c < (initTickCloudsState store0 w k).nextId ∧
          0 < ((initTickCloudsState store0 w k).store c).mass := by
        intro c hc
        refine ⟨hb c hc, ?_⟩
        rw [show (initTickCloudsState store0 w k).store = store0 from rfl,
          (hcluster c).ms]
        exact hmass c hc
      have hcount := phaseB_count rfl hrand w.clouds
        (initTickCloudsState store0 w k) st hfold hcond
      have h0 : (initTickCloudsState store0 w k).remaining = [] := rfl
      rw [h0] at hcount
      have hclEq : w2.clouds = st.remaining := by rw [← hw2]
      rw [hclEq]
      simpa using hcount

/-- C4, amended: a zero-delta tick changes no location and no mass of any
existing object and keeps the rain count; the cloud count cannot drop,
though it can still grow, because the spawn draw is not scaled by the
delta. -/
theorem C4_zero_delta (w : World) (rand : Nat → ℝ) (k : Nat) (p : World × Nat)
    (h : tickWorld w 0 rand k = some p)
    (hrand : ∀ n, 0 ≤ rand n)
    (hfix : ∀ i ∈ kinematicsOrder w, KinFixed w.store i)
    (hb : IdsBounded w) (hplanet : w.planetId < w.nextId)
    (hrainInv : ∀ r ∈ w.rain, numGtShape (vectorMath.magnitude
      (vectorMath.subtract r.location ((w.store w.planetId).location)))
      ((w.store w.planetId).shape))
    (hmass : ∀ c ∈ w.clouds, 0 < (w.store c).mass) :
    (∀ i, i < w.nextId → (p.1.store i).location = (w.store i).location ∧
      (p.1.store i).mass = (w.store i).mass) ∧
    p.1.rain.length = w.rain.length ∧
    w.clouds.length ≤ p.1.clouds.length := by
  obtain ⟨w2, htc, hstore, hclouds, _, hplanetId, _, hrainEq⟩ := tickWorld_inv h
  rw [postKin_fixed hfix] at htc
  obtain ⟨n1, _, hplanetEq2, hcps, _, _, _, hdt0⟩ := tickClouds_writes hb htc
  obtain ⟨hmassPres, hrain2⟩ := hdt0 rfl hrand
  have hcount : w.clouds.length ≤ w2.clouds.length :=
    tickClouds_count hrand hb hmass htc
  refine ⟨?_, ?_, ?_⟩
  · intro i hi
    rw [hstore]
    exact ⟨(hcps i hi).loc, hmassPres i hi⟩
  · rw [hrainEq, hrain2]
    apply tickRain_zero
    intro r hrr
    have hloc2 : (w2.store w2.planetId).location = (w.store w.planetId).location := by
      rw [hplanetEq2, (hcps w.planetId hplanet).loc]
    have hshape2 : (w2.store w2.planetId).shape = (w.store w.planetId).shape := by
      rw [hplanetEq2, (hcps w.planetId hplanet).shp]
    rw [hloc2, hshape2]
    exact hrainInv r hrr
  · rw [hclouds]
    exact hcount

/-! ## Concrete evaluation of the sector grouping -/

theorem cloudRanges_explicit :
    cloudRanges = [
      (Real.pi * 2 - Real.pi / 10, Real.pi * 3 / 10),
      (Real.pi / 10, Real.pi / 2),
      (Real.pi * 3 / 10, Real.pi * 7 / 10),
      (Real.pi / 2, Real.pi * 9 / 10),
      (Real.pi * 7 / 10, Real.pi * 11 / 10),
      (Real.pi * 9 / 10, Real.pi * 13 / 10),
      (Real.pi * 11 / 10, Real.pi * 3 / 2),
      (Real.pi * 13 / 10, Real.pi * 17 / 10),
      (Real.pi * 3 / 2, Real.pi * 19 / 10),
      (Real.pi * 17 / 10, Real.pi / 10)] := by
  unfold cloudRanges cloudRangeCount
  rw [show List.range 10 = [0, 1, 2, 3, 4, 5, 6, 7, 8, 9] from rfl]
  simp only [List.map_cons, List.map_nil]
  norm_num [Prod.ext_iff]
  repeat' apply And.intro
  all_goals first | trivial | ring

theorem filter_rot_of_inRange (store : Nat → Obj) (clouds : List Nat)
    (b e ρ : ℝ) (hrot : ∀ c ∈ clouds, (orbitOf (store c)).rotation = ρ)
    (h : inCloudRange b e ρ) :
    clouds.filter (fun c => decide (inCloudRange b e (orbitOf (store c)).rotation)) =
      clouds := by
  rw [List.filter_eq_self]
  intro c hc
  simp only [decide_eq_true_eq]
  rw [hrot c hc]
  exact h

theorem filter_rot_of_not_inRange (store : Nat → Obj) (clouds : List Nat)
    (b e ρ : ℝ) (hrot : ∀ c ∈ clouds, (orbitOf (store c)).rotation = ρ)
    (h : ¬ inCloudRange b e ρ) :
    clouds.filter (fun c => decide (inCloudRange b e (orbitOf (store c)).rotation)) =
      [] := by
  rw [List.filter_eq_nil_iff]
  intro c hc
  simp only [decide_eq_true_eq]
  rw [hrot c hc]
  exact h

theorem zero_mem_sector0 :
    inCloudRange (Real.pi * 2 - Real.pi / 10) (Real.pi * 3 / 10) 0 := by
  have hpi := Real.pi_pos
  unfold inCloudRange
  exact Or.inl ⟨by linarith, Or.inr (by linarith)⟩

theorem zero_mem_sector9 :
    inCloudRange (Real.pi * 17 / 10) (Real.pi / 10) 0 := by
  have hpi := Real.pi_pos
  unfold inCloudRange
  exact Or.inl ⟨by linarith, Or.inr (by linarith)⟩

theorem zero_not_mem_mid {b e : ℝ} (hb : 0 < b) (hbe : b ≤ e) :
    ¬ inCloudRange b e 0 := by
  intro h
  unfold inCloudRange at h
  rcases h with ⟨h1, h2 | h2⟩ | ⟨h1, h2⟩ <;> linarith

/-- Groups of a cloud list whose orbit rotations are all zero: the two
sectors whose fuzzy range wraps past zero contain every cloud, the others
none. -/
theorem groups_rot_zero (store : Nat → Obj) (clouds : List Nat)
    (hrot : ∀ c ∈ clouds, (orbitOf (store c)).rotation = 0) :
    getCloudGroups store clouds =
      [clouds, [], [], [], [], [], [], [], [], clouds] := by
  have hpi := Real.pi_pos
  unfold getCloudGroups
  rw [cloudRanges_explicit]
  simp only [List.map_cons, List.map_nil]
  dsimp only
  rw [filter_rot_of_inRange store clouds _ _ 0 hrot zero_mem_sector0,
    filter_rot_of_inRange store clouds _ _ 0 hrot zero_mem_sector9,
    filter_rot_of_not_inRange store clouds _ _ 0 hrot
      (zero_not_mem_mid (by linarith) (by linarith)),
    filter_rot_of_not_inRange store clouds _ _ 0 hrot
      (zero_not_mem_mid (by linarith) (by linarith)),
    filter_rot_of_not_inRange store clouds _ _ 0 hrot
      (zero_not_mem_mid (by linarith) (by linarith)),
    filter_rot_of_not_inRange store clouds _ _ 0 hrot
      (zero_not_mem_mid (by linarith) (by linarith)),
    filter_rot_of_not_inRange store clouds _ _ 0 hrot
      (zero_not_mem_mid (by linarith) (by linarith)),
    filter_rot_of_not_inRange store clouds _ _ 0 hrot
      (zero_not_mem_mid (by linarith) (by linarith)),
    filter_rot_of_not_inRange store clouds _ _ 0 hrot
      (zero_not_mem_mid (by linarith) (by linarith)),
    filter_rot_of_not_inRange store clouds _ _ 0 hrot
      (zero_not_mem_mid (by linarith) (by linarith))]

/-! ## Pointwise evaluation helpers for concrete worlds -/

theorem setFriendsRaining_empty (store : Nat → Obj) :
    setFriendsRaining store ∅ = store :=
  funext fun i => if_neg (Finset.not_mem_empty i)

theorem mag_sub_x_of_le {a b : ℝ} (h : b ≤ a) :
    vectorMath.magnitude (vectorMath.subtract ((a, 0) : Vector2d)
      ((b, 0) : Vector2d)) = a - b := by
  unfold vectorMath.magnitude vectorMath.subtract
  rw [show (a - b) ^ 2 + ((0:ℝ) - 0) ^ 2 = (a - b) ^ 2 by ring,
    Real.sqrt_sq (by linarith)]

theorem mag_sub_x_of_ge {a b : ℝ} (h : a ≤ b) :
    vectorMath.magnitude (vectorMath.subtract ((a, 0) : Vector2d)
      ((b, 0) : Vector2d)) = b - a := by
  unfold vectorMath.magnitude vectorMath.subtract
  rw [show (a - b) ^ 2 + ((0:ℝ) - 0) ^ 2 = (b - a) ^ 2 by ring,
    Real.sqrt_sq (by linarith)]

theorem clusterPair_self {store : Nat → Obj} {c : Nat} {a b : ℝ}
    (h : (store c).shape = Shape.ellipse a b) :
    clusterPair store c c = some store := by
  unfold clusterPair
  simp only [h]
  rw [if_pos trivial]

theorem clusterPair_noop {store : Nat → Obj} {c d : Nat} {a b : ℝ}
    (hsh : (store c).shape = Shape.ellipse a b) (hne : c ≠ d)
    (hfar : ¬ vectorMath.magnitude (vectorMath.subtract (store d).location
      (store c).location) < min a b + min a b / 4) :
    clusterPair store c d = some store := by
  unfold clusterPair
  simp only [hsh]
  rw [if_neg hne, if_neg hfar]

theorem clusterGroup_single {store : Nat → Obj} {c : Nat} {a b : ℝ}
    (h : (store c).shape = Shape.ellipse a b) :
    clusterGroup store [c] = some store := by
  have h1 : clusterGroup store [c] =
      ((clusterPair store c c).bind fun t1 => some t1).bind fun s1 => some s1 := rfl
  rw [h1, clusterPair_self h]
  simp only [Option.some_bind]

theorem clusterGroup_pair_of_noop {store : Nat → Obj} {c d : Nat}
    (hcc : clusterPair store c c = some store)
    (hcd : clusterPair store c d = some store)
    (hdc : clusterPair store d c = some store)
    (hdd : clusterPair store d d = some store) :
    clusterGroup store [c, d] = some store := by
  have h1 : clusterGroup store [c, d] =
      ((clusterPair store c c).bind fun t1 =>
        (clusterPair t1 c d).bind fun t2 => some t2).bind fun s1 =>
        ((clusterPair s1 d c).bind fun u1 =>
          (clusterPair u1 d d).bind fun u2 => some u2).bind fun s2 => some s2 := rfl
  rw [h1]
  simp only [hcc, hcd, hdc, hdd, Option.some_bind]

theorem clusterClouds_id (store : Nat → Obj) :
    ∀ (groups : List (List Nat)),
      (∀ g ∈ groups, clusterGroup store g = some store) →
      clusterClouds store groups = some store := by
  intro groups
  induction groups with
  | nil => intro _; rfl
  | cons g rest ih =>
    intro h
    unfold clusterClouds
    rw [List.foldlM_cons, h g (List.mem_cons_self _ _)]
    exact ih (fun g2 hg2 => h g2 (List.mem_cons_of_mem _ hg2))

theorem clusterStore_rot_zero_noop (store : Nat → Obj) (clouds : List Nat)
    (hrot : ∀ c ∈ clouds, (orbitOf (store c)).rotation = 0)
    (hgrp : clusterGroup store clouds = some store) :
    clusterStore store clouds = some store := by
  unfold clusterStore
  rw [groups_rot_zero store clouds hrot]
  apply clusterClouds_id
  intro g hg
  fin_cases hg <;> first | exact hgrp | exact clusterGroup_nil store

theorem thresholdStore_noop {st : TickCloudsState} {c : Nat}
    (h : ¬ collectiveMass st.store c > rainThreshold) :
    thresholdStore st c = st.store := if_neg h

theorem collectiveMass_of_empty_friends {store : Nat → Obj} {c : Nat}
    (h : (store c).friends = ∅) : collectiveMass store c = (store c).mass := by
  unfold collectiveMass
  rw [h, Finset.sum_empty, add_zero]

theorem rainPhase_floating {dt : ℝ} {rand : Nat → ℝ} {st : TickCloudsState}
    {c : Nat} (hth : thresholdStore st c = st.store)
    (hst : (st.store c).state = CloudState.floating) :
    rainPhase dt rand st c = some { st with remaining := st.remaining ++ [c] } := by
  unfold rainPhase
  rw [hth, if_neg (by rw [hst]; intro h2; exact CloudState.noConfusion h2)]

theorem rainPhase_raining_noemit {dt : ℝ} {rand : Nat → ℝ} {st : TickCloudsState}
    {c : Nat} {cloudRadius : ℝ}
    (hst : (thresholdStore st c c).state = CloudState.raining)
    (hsh : (orbitOf (thresholdStore st c c)).shape = Shape.circle cloudRadius)
    (hr : ¬ rand st.randIdx < emissionProbability dt (collectiveMass st.store c)) :
    rainPhase dt rand st c = some
      { store := thresholdStore st c,
        remaining := if (thresholdStore st c c).mass > 0
          then st.remaining ++ [c] else st.remaining,
        rain := st.rain, randIdx := st.randIdx + 1, nextId := st.nextId } := by
  unfold rainPhase
  rw [if_pos hst]
  simp only [hsh]
  rw [if_neg hr]

theorem spawnStep_fail {rand : Nat → ℝ} {n pid : Nat} {st : TickCloudsState}
    (hn : n < 20) (hr : ¬ rand st.randIdx < 0.05) :
    spawnStep rand n pid st = some { st with randIdx := st.randIdx + 1 } := by
  unfold spawnStep
  rw [if_pos hn, if_neg hr]

theorem spawnStep_spawn {rand : Nat → ℝ} {n pid : Nat} {st : TickCloudsState}
    {nc : Obj} (hn : n < 20) (hr : rand st.randIdx < 0.05)
    (hc : createRandomCloud pid (st.store pid) (rand (st.randIdx + 1))
      (rand (st.randIdx + 2)) (rand (st.randIdx + 3)) (rand (st.randIdx + 4))
      (rand (st.randIdx + 5)) = some nc) :
    spawnStep rand n pid st = some
      { st with
        store := setObj st.store st.nextId nc
        remaining := st.remaining ++ [st.nextId]
        randIdx := st.randIdx + 6
        nextId := st.nextId + 1 } := by
  unfold spawnStep
  rw [if_pos hn, if_pos hr, hc]
  simp only [Option.some_bind]

theorem tickCloudStep_floating_noop {dt : ℝ} {rand : Nat → ℝ} {n pid : Nat}
    {st : TickCloudsState} {c : Nat}
    (hth : thresholdStore st c = st.store)
    (hst : (st.store c).state = CloudState.floating)
    (hn : n < 20) (hr : ¬ rand st.randIdx < 0.05) :
    tickCloudStep dt rand n pid st c =
      some { st with
        remaining := st.remaining ++ [c]
        randIdx := st.randIdx + 1 } := by
  unfold tickCloudStep
  rw [rainPhase_floating hth hst]
  simp only [Option.some_bind]
  have hr2 : ¬ rand ({ st with remaining := st.remaining ++ [c] } : TickCloudsState).randIdx < 0.05 := hr
  rw [spawnStep_fail hn hr2]

theorem tickPlants_nil (w : World) (dt : ℝ) (h : w.plants = []) :
    tickPlants w dt = some { w with plants := [] } := by
  unfold tickPlants
  rw [h]
  rfl

theorem tickClouds_eval {w : World} {dt : ℝ} {rand : Nat → ℝ} {k : Nat}
    {store0 : Nat → Obj} {stF : TickCloudsState}
    (hcs : clusterStore w.store w.clouds = some store0)
    (hfold : w.clouds.foldlM (tickCloudStep dt rand w.clouds.length w.planetId)
      (initTickCloudsState store0 w k) = some stF) :
    tickClouds w dt rand k = some ({ w with
      store := stF.store
      clouds := stF.remaining
      rain := stF.rain
      nextId := stF.nextId }, stF.randIdx) := by
  unfold tickClouds
  rw [hcs]
  simp only [Option.some_bind]
  rw [hfold]
  simp only [Option.some_bind]

theorem tickWorld_eval {w : World} {dt : ℝ} {rand : Nat → ℝ} {k : Nat}
    {wmid : World} {k2 : Nat}
    (htc : tickClouds (postKin w dt) dt rand k = some (wmid, k2))
    (hplants : wmid.plants = []) :
    tickWorld w dt rand k =
      some ({ wmid with
        rain := tickRain (wmid.store wmid.planetId) dt wmid.rain
        plants := [] }, k2) := by
  unfold tickWorld
  rw [htc]
  simp only [Option.some_bind]
  have h2 := tickPlants_nil { wmid with rain := tickRain (wmid.store wmid.planetId) dt wmid.rain } dt hplants
  rw [h2]
  simp only [Option.some_bind]

/-! ## Concrete worlds: shared store shape and fixed-point lemmas -/

/-- Heap of the concrete test worlds: sun at 0, planet at 1, up to two
cloud objects at 2 and 3 (identifiers past 3 alias the second cloud slot;
they are never live). -/
def mkStore (o2 o3 : Obj) : Nat → Obj :=
  fun i => if i = 0 then sunW else if i = 1 then planetW else if i = 2 then o2 else o3

theorem kinFixed_planetW {store : Nat → Obj} {i : Nat} (hp : store i = planetW) :
    KinFixed store i := by
  refine ⟨by rw [hp]; exact le_refl 0, by rw [hp]; exact two_pi_pos, ?_⟩
  intro orb ho
  rw [hp] at ho
  exact absurd ho (by simp [planetW])

theorem kinFixed_sunW {store : Nat → Obj} {i : Nat} (hs : store i = sunW)
    (hporb : (store 1).orbit = none) (hploc : (store 1).location = (0, 0)) :
    KinFixed store i := by
  refine ⟨by rw [hs]; exact le_refl 0, by rw [hs]; exact two_pi_pos, ?_⟩
  intro orb ho
  rw [hs] at ho
  have hso : sunW.orbit = some ⟨0, Real.pi * 2 / 2000, 1, Shape.ellipse 175 200⟩ := rfl
  rw [hso] at ho
  have h2 : orb = (⟨0, Real.pi * 2 / 2000, 1, Shape.ellipse 175 200⟩ : Orbit) := by
    symm
    simpa using ho
  subst h2
  refine ⟨le_refl 0, two_pi_pos, hporb, ?_⟩
  rw [hs, hploc]
  show ((175 : ℝ), (0 : ℝ)) = vectorMath.add
    (orbitPoint (Shape.ellipse 175 200) 0) ((0 : ℝ), (0 : ℝ))
  unfold orbitPoint ellipseCalcRotationalPoint vectorMath.add
  norm_num

theorem kinFixed_parts {store : Nat → Obj} {i : Nat} {r v : ℝ} {tgt : Nat}
    (hrot : (store i).rotation = 0)
    (horb : (store i).orbit = some ⟨0, v, tgt, Shape.circle r⟩)
    (htgt : (store tgt).orbit = none)
    (hloc : (store i).location = (r, 0))
    (htloc : (store tgt).location = (0, 0)) :
    KinFixed store i := by
  refine ⟨by rw [hrot], by rw [hrot]; exact two_pi_pos, ?_⟩
  intro orb ho
  rw [horb] at ho
  have h2 : orb = (⟨0, v, tgt, Shape.circle r⟩ : Orbit) := by
    symm
    simpa using ho
  subst h2
  refine ⟨le_refl 0, two_pi_pos, htgt, ?_⟩
  rw [hloc, htloc]
  show ((r : ℝ), (0 : ℝ)) = vectorMath.add
    (orbitPoint (Shape.circle r) 0) ((0 : ℝ), (0 : ℝ))
  unfold orbitPoint calcRotationalPoint vectorMath.add
  norm_num

/-! ## A two-cloud world whose stale friendships are never re-derived -/

/-- A cloud at orbit phase zero on the circle of radius 7, already friends
with the cloud at 21. -/
def cloud2W3 : Obj :=
  { location := (7, 0), rotation := 0, rotationalVelocity := 0,
    shape := Shape.ellipse 0.6 0.4,
    orbit := some ⟨0, Real.pi * 2 / 900, 1, Shape.circle 7⟩,
    mass := 5, state := CloudState.floating, friends := {3} }

/-- A cloud at orbit phase zero on the circle of radius 21, already
friends with the cloud at 7: the pair is 14 apart, far beyond the
clustering threshold. -/
def cloud3W3 : Obj :=
  { location := (21, 0), rotation := 0, rotationalVelocity := 0,
    shape := Shape.ellipse 0.6 0.4,
    orbit := some ⟨0, Real.pi * 2 / 900, 1, Shape.circle 21⟩,
    mass := 5, state := CloudState.floating, friends := {2} }

def W3 : World :=
  { store := mkStore cloud2W3 cloud3W3, sunId := 0, planetId := 1,
    clouds := [2, 3], rain := [], ground := 0, plants := [], nextId := 4 }

theorem W3_kinFixed : ∀ i ∈ kinematicsOrder W3, KinFixed W3.store i := by
  intro i hi
  fin_cases hi
  · exact kinFixed_sunW rfl rfl rfl
  · exact kinFixed_planetW rfl
  · exact kinFixed_parts rfl rfl rfl rfl rfl
  · exact kinFixed_parts rfl rfl rfl rfl rfl

theorem postKin_W3 : postKin W3 0 = W3 := postKin_fixed W3_kinFixed

theorem W3_dist_23 : vectorMath.magnitude
    (vectorMath.subtract (W3.store 3).location (W3.store 2).location) = 14 := by
  rw [show (W3.store 3).location = ((21 : ℝ), 0) from rfl,
    show (W3.store 2).location = ((7 : ℝ), 0) from rfl,
    mag_sub_x_of_le (by norm_num)]
  norm_num

theorem W3_dist_32 : vectorMath.magnitude
    (vectorMath.subtract (W3.store 2).location (W3.store 3).location) = 14 := by
  rw [show (W3.store 2).location = ((7 : ℝ), 0) from rfl,
    show (W3.store 3).location = ((21 : ℝ), 0) from rfl,
    mag_sub_x_of_ge (by norm_num)]
  norm_num

theorem min_point_six : min (0.6 : ℝ) 0.4 = 0.4 := min_eq_right (by norm_num)

theorem clusterStore_W3 : clusterStore W3.store W3.clouds = some W3.store := by
  apply clusterStore_rot_zero_noop
  · intro c hc
    fin_cases hc <;> rfl
  · exact clusterGroup_pair_of_noop
      (clusterPair_self (rfl : (W3.store 2).shape = Shape.ellipse 0.6 0.4))
      (clusterPair_noop (rfl : (W3.store 2).shape = Shape.ellipse 0.6 0.4)
        (by decide) (by rw [W3_dist_23, min_point_six]; norm_num))
      (clusterPair_noop (rfl : (W3.store 3).shape = Shape.ellipse 0.6 0.4)
        (by decide) (by rw [W3_dist_32, min_point_six]; norm_num))
      (clusterPair_self (rfl : (W3.store 3).shape = Shape.ellipse 0.6 0.4))

theorem collectiveMass_W3_2 : collectiveMass W3.store 2 = 15 := by
  unfold collectiveMass
  rw [show (W3.store 2).friends = ({3} : Finset Nat) from rfl, Finset.sum_singleton,
    show (W3.store 3).friends = ({2} : Finset Nat) from rfl, Finset.sum_singleton,
    show (W3.store 2).mass = 5 from rfl, show (W3.store 3).mass = 5 from rfl]
  norm_num

theorem collectiveMass_W3_3 : collectiveMass W3.store 3 = 15 := by
  unfold collectiveMass
  rw [show (W3.store 3).friends = ({2} : Finset Nat) from rfl, Finset.sum_singleton,
    show (W3.store 2).friends = ({3} : Finset Nat) from rfl, Finset.sum_singleton,
    show (W3.store 2).mass = 5 from rfl, show (W3.store 3).mass = 5 from rfl]
  norm_num

def stW3a : TickCloudsState :=
  { store := W3.store, remaining := [2], rain := [], randIdx := 1, nextId := 4 }

def stW3b : TickCloudsState :=
  { store := W3.store, remaining := [2, 3], rain := [], randIdx := 2, nextId := 4 }

theorem tickClouds_W3 : tickClouds W3 0 halfRand 0 = some (W3, 2) := by
  have hth2 : thresholdStore (initTickCloudsState W3.store W3 0) 2 =
      (initTickCloudsState W3.store W3 0).store :=
    thresholdStore_noop (by
      show ¬ collectiveMass W3.store 2 > rainThreshold
      rw [collectiveMass_W3_2, show rainThreshold = (30 : ℝ) from rfl]
      norm_num)
  have hth3 : thresholdStore stW3a 3 = stW3a.store :=
    thresholdStore_noop (by
      show ¬ collectiveMass W3.store 3 > rainThreshold
      rw [collectiveMass_W3_3, show rainThreshold = (30 : ℝ) from rfl]
      norm_num)
  have hstep2 : tickCloudStep 0 halfRand W3.clouds.length W3.planetId
      (initTickCloudsState W3.store W3 0) 2 = some stW3a :=
    (tickCloudStep_floating_noop hth2 rfl (by decide)
      (by norm_num [halfRand])).trans (by rfl)
  have hstep3 : tickCloudStep 0 halfRand W3.clouds.length W3.planetId stW3a 3 =
      some stW3b :=
    (tickCloudStep_floating_noop hth3 rfl (by decide)
      (by norm_num [halfRand])).trans (by rfl)
  have h1 : W3.clouds.foldlM (tickCloudStep 0 halfRand W3.clouds.length W3.planetId)
      (initTickCloudsState W3.store W3 0) =
      (tickCloudStep 0 halfRand W3.clouds.length W3.planetId
        (initTickCloudsState W3.store W3 0) 2).bind fun s1 =>
        (tickCloudStep 0 halfRand W3.clouds.length W3.planetId s1 3).bind fun s2 =>
          some s2 := rfl
  have hfold : W3.clouds.foldlM
      (tickCloudStep 0 halfRand W3.clouds.length W3.planetId)
      (initTickCloudsState W3.store W3 0) = some stW3b := by
    rw [h1, hstep2]
    simp only [Option.some_bind]
    rw [hstep3]
    simp only [Option.some_bind]
  exact (tickClouds_eval clusterStore_W3 hfold).trans (by rfl)

theorem tickWorld_W3 : tickWorld W3 0 halfRand 0 = some (W3, 2) := by
  have h := tickWorld_eval (by rw [postKin_W3]; exact tickClouds_W3)
    (rfl : W3.plants = [])
  exact h.trans (by rfl)

/-- C3 counterexample: in W3 the two clouds are mutual friends from an
earlier tick but sit 14 apart, far beyond the clustering threshold
min(0.6,0.4) + min(0.6,0.4)/4 in either orientation, so the current-tick
proximity test derives no friendship; yet a full tick returns the world
unchanged, the stale friendships included — the friend sets are not
rebuilt from scratch. -/
theorem C3_counterexample :
    tickWorld W3 0 halfRand 0 = some (W3, 2) ∧
    3 ∈ (W3.store 2).friends ∧ 2 ∈ (W3.store 3).friends ∧
    ¬ vectorMath.magnitude (vectorMath.subtract (W3.store 3).location
        (W3.store 2).location) < min 0.6 0.4 + min 0.6 0.4 / 4 ∧
    ¬ vectorMath.magnitude (vectorMath.subtract (W3.store 2).location
        (W3.store 3).location) < min 0.6 0.4 + min 0.6 0.4 / 4 :=
  ⟨tickWorld_W3,
   by show (3 : Nat) ∈ ({3} : Finset Nat); exact Finset.mem_singleton_self 3,
   by show (2 : Nat) ∈ ({2} : Finset Nat); exact Finset.mem_singleton_self 2,
   by rw [W3_dist_23, min_point_six]; norm_num,
   by rw [W3_dist_32, min_point_six]; norm_num⟩

theorem W3_idsBounded : IdsBounded W3 := by
  intro x hx
  fin_cases hx <;> decide

theorem C3_friends_never_cleared_witness :
    IdsBounded W3 ∧ 2 < W3.nextId ∧
    (W3.store 2).friends ⊆ ((W3, 2).1.store 2).friends :=
  ⟨W3_idsBounded, by decide,
   C3_friends_never_cleared W3 0 halfRand 0 (W3, 2) 2 W3_idsBounded (by decide)
     tickWorld_W3⟩

/-! ## A zero-delta tick that spawns a cloud -/

/-- The constant zero random stream: every spawn draw succeeds. -/
def zeroRand : Nat → ℝ := fun _ => 0

/-- A lone floating cloud, far from any threshold. -/
def cloud4 : Obj :=
  { location := (7, 0), rotation := 0, rotationalVelocity := 0,
    shape := Shape.ellipse 0.6 0.4,
    orbit := some ⟨0, Real.pi * 2 / 900, 1, Shape.circle 7⟩,
    mass := 5, state := CloudState.floating, friends := ∅ }

def W4 : World :=
  { store := mkStore cloud4 cloud4, sunId := 0, planetId := 1,
    clouds := [2], rain := [], ground := 0, plants := [], nextId := 3 }

theorem W4_kinFixed : ∀ i ∈ kinematicsOrder W4, KinFixed W4.store i := by
  intro i hi
  fin_cases hi
  · exact kinFixed_sunW rfl rfl rfl
  · exact kinFixed_planetW rfl
  · exact kinFixed_parts rfl rfl rfl rfl rfl

theorem postKin_W4 : postKin W4 0 = W4 := postKin_fixed W4_kinFixed

theorem clusterStore_W4 : clusterStore W4.store W4.clouds = some W4.store := by
  apply clusterStore_rot_zero_noop
  · intro c hc
    fin_cases hc
    rfl
  · exact clusterGroup_single (rfl : (W4.store 2).shape = Shape.ellipse 0.6 0.4)

/-- The cloud createRandomCloud builds from the all-zero draw sequence:
orbital radius 2*3+1, phase 0, spin velocity 2*pi/800 in the planet's
direction of rotation. -/
def nc4 : Obj :=
  { location := calcRotationalPoint ((3 : ℝ) * 2 + 1 + 0 * 1) (0 * 2 * Real.pi),
    rotation := 0, rotationalVelocity := 0,
    shape := Shape.ellipse (0.6 + 0 * 0.2) (0.4 + 0 * 0.2),
    orbit := some ⟨0 * 2 * Real.pi, (if planetW.rotationalVelocity > 0 then (1 : ℝ) else -1) * (2 * Real.pi) / (0 * 700 + 800), 1, Shape.circle ((3 : ℝ) * 2 + 1 + 0 * 1)⟩,
    mass := 5, state := CloudState.floating, friends := ∅ }

theorem createRandomCloud_nc4 :
    createRandomCloud 1 planetW 0 0 0 0 0 = some nc4 := rfl

def stW4a : TickCloudsState :=
  { store := W4.store, remaining := [2], rain := [], randIdx := 0, nextId := 3 }

def stW4b : TickCloudsState :=
  { store := setObj W4.store 3 nc4, remaining := [2, 3], rain := [], randIdx := 6,
    nextId := 4 }

def W4out : World :=
  { W4 with store := setObj W4.store 3 nc4, clouds := [2, 3], nextId := 4 }

theorem tickClouds_W4 : tickClouds W4 0 zeroRand 0 = some (W4out, 6) := by
  have hth : thresholdStore (initTickCloudsState W4.store W4 0) 2 =
      (initTickCloudsState W4.store W4 0).store :=
    thresholdStore_noop (by
      show ¬ collectiveMass W4.store 2 > rainThreshold
      rw [collectiveMass_of_empty_friends (rfl : (W4.store 2).friends = ∅),
        show (W4.store 2).mass = 5 from rfl, show rainThreshold = (30 : ℝ) from rfl]
      norm_num)
  have hrp : rainPhase 0 zeroRand (initTickCloudsState W4.store W4 0) 2 =
      some stW4a :=
    (rainPhase_floating hth rfl).trans (by rfl)
  have hc : createRandomCloud W4.planetId (stW4a.store W4.planetId)
      (zeroRand (stW4a.randIdx + 1)) (zeroRand (stW4a.randIdx + 2))
      (zeroRand (stW4a.randIdx + 3)) (zeroRand (stW4a.randIdx + 4))
      (zeroRand (stW4a.randIdx + 5)) = some nc4 := createRandomCloud_nc4
  have hsp : spawnStep zeroRand W4.clouds.length W4.planetId stW4a = some stW4b :=
    (spawnStep_spawn (by decide) (by norm_num [zeroRand]) hc).trans (by rfl)
  have hstep : tickCloudStep 0 zeroRand W4.clouds.length W4.planetId
      (initTickCloudsState W4.store W4 0) 2 = some stW4b := by
    unfold tickCloudStep
    rw [hrp]
    simp only [Option.some_bind]
    exact hsp
  have h1 : W4.clouds.foldlM (tickCloudStep 0 zeroRand W4.clouds.length W4.planetId)
      (initTickCloudsState W4.store W4 0) =
      (tickCloudStep 0 zeroRand W4.clouds.length W4.planetId
        (initTickCloudsState W4.store W4 0) 2).bind fun s1 => some s1 := rfl
  have hfold : W4.clouds.foldlM
      (tickCloudStep 0 zeroRand W4.clouds.length W4.planetId)
      (initTickCloudsState W4.store W4 0) = some stW4b := by
    rw [h1, hstep]
    simp only [Option.some_bind]
  exact (tickClouds_eval clusterStore_W4 hfold).trans (by rfl)

theorem tickWorld_W4 : tickWorld W4 0 zeroRand 0 = some (W4out, 6) := by
  have h := tickWorld_eval (by rw [postKin_W4]; exact tickClouds_W4)
    (rfl : W4out.plants = [])
  exact h.trans (by rfl)

/-- C4 counterexample: a tick of W4 with delta 0 and an all-zero random
stream spawns a cloud — the 0.05 spawn draw inside the per-cloud loop is
not scaled by the delta — so the cloud count grows from 1 to 2. -/
theorem C4_counterexample :
    tickWorld W4 0 zeroRand 0 = some (W4out, 6) ∧
    W4.clouds.length = 1 ∧ W4out.clouds.length = 2 :=
  ⟨tickWorld_W4, rfl, rfl⟩

theorem C4_zero_delta_witness :
    ((Wempty, 0).1.store 2).location = (Wempty.store 2).location ∧
    (Wempty, 0).1.rain.length = Wempty.rain.length :=
  ⟨((C4_zero_delta Wempty halfRand 0 (Wempty, 0) (tickWorld_Wempty halfRand)
      (fun n => by norm_num [halfRand]) Wempty_kinFixed
      (fun x hx => absurd hx (List.not_mem_nil x)) (by decide)
      (fun r hr => absurd hr (List.not_mem_nil r))
      (fun c hc => absurd hc (List.not_mem_nil c))).1 2 (by decide)).1,
   (C4_zero_delta Wempty halfRand 0 (Wempty, 0) (tickWorld_Wempty halfRand)
      (fun n => by norm_num [halfRand]) Wempty_kinFixed
      (fun x hx => absurd hx (List.not_mem_nil x)) (by decide)
      (fun r hr => absurd hr (List.not_mem_nil r))
      (fun c hc => absurd hc (List.not_mem_nil c))).2.1⟩

/-! ## A world whose lone cloud crosses the rain threshold -/

/-- A lone floating cloud of mass 31: its collective mass exceeds the
rain threshold 30. -/
def cloud5 : Obj :=
  { location := (7, 0), rotation := 0, rotationalVelocity := 0,
    shape := Shape.ellipse 0.6 0.4,
    orbit := some ⟨0, Real.pi * 2 / 900, 1, Shape.circle 7⟩,
    mass := 31, state := CloudState.floating, friends := ∅ }

def W5 : World :=
  { store := mkStore cloud5 cloud5, sunId := 0, planetId := 1,
    clouds := [2], rain := [], ground := 0, plants := [], nextId := 3 }

/-- The heap of W5 after the threshold transition: the cloud raining. -/
def store5r : Nat → Obj :=
  setObj W5.store 2 { W5.store 2 with state := CloudState.raining }

def W5p : World := { W5 with store := store5r }

theorem W5_kinFixed : ∀ i ∈ kinematicsOrder W5, KinFixed W5.store i := by
  intro i hi
  fin_cases hi
  · exact kinFixed_sunW rfl rfl rfl
  · exact kinFixed_planetW rfl
  · exact kinFixed_parts rfl rfl rfl rfl rfl

theorem postKin_W5 : postKin W5 0 = W5 := postKin_fixed W5_kinFixed

theorem clusterStore_W5 : clusterStore W5.store W5.clouds = some W5.store := by
  apply clusterStore_rot_zero_noop
  · intro c hc
    fin_cases hc
    rfl
  · exact clusterGroup_single (rfl : (W5.store 2).shape = Shape.ellipse 0.6 0.4)

theorem collectiveMass_W5_2 : collectiveMass W5.store 2 > rainThreshold := by
  rw [collectiveMass_of_empty_friends (rfl : (W5.store 2).friends = ∅),
    show (W5.store 2).mass = 31 from rfl, show rainThreshold = (30 : ℝ) from rfl]
  norm_num

theorem thresholdStore_W5 :
    thresholdStore (initTickCloudsState W5.store W5 0) 2 = store5r := by
  unfold thresholdStore
  rw [if_pos (show collectiveMass (initTickCloudsState W5.store W5 0).store 2 >
    rainThreshold from collectiveMass_W5_2)]
  rw [show ((initTickCloudsState W5.store W5 0).store 2).friends =
    (∅ : Finset Nat) from rfl]
  exact setFriendsRaining_empty _

def stW5a : TickCloudsState :=
  { store := store5r, remaining := [2], rain := [], randIdx := 1, nextId := 3 }

def stW5b : TickCloudsState :=
  { store := store5r, remaining := [2], rain := [], randIdx := 2, nextId := 3 }

theorem tickClouds_W5 : tickClouds W5 0 halfRand 0 = some (W5p, 2) := by
  have hrp : rainPhase 0 halfRand (initTickCloudsState W5.store W5 0) 2 =
      some stW5a := by
    rw [rainPhase_raining_noemit
      (by rw [thresholdStore_W5]; rfl)
      (by rw [thresholdStore_W5]; rfl)
      (by rw [emissionProbability_zero]
          show ¬ (1 : ℝ) / 2 < 0
          norm_num),
      thresholdStore_W5]
    rw [if_pos (show (store5r 2).mass > 0 from by
      show (31 : ℝ) > 0
      norm_num)]
    rfl
  have hsp : spawnStep halfRand W5.clouds.length W5.planetId stW5a = some stW5b :=
    (spawnStep_fail (by decide) (by norm_num [halfRand])).trans (by rfl)
  have hstep : tickCloudStep 0 halfRand W5.clouds.length W5.planetId
      (initTickCloudsState W5.store W5 0) 2 = some stW5b := by
    unfold tickCloudStep
    rw [hrp]
    simp only [Option.some_bind]
    exact hsp
  have h1 : W5.clouds.foldlM (tickCloudStep 0 halfRand W5.clouds.length W5.planetId)
      (initTickCloudsState W5.store W5 0) =
      (tickCloudStep 0 halfRand W5.clouds.length W5.planetId
        (initTickCloudsState W5.store W5 0) 2).bind fun s1 => some s1 := rfl
  have hfold : W5.clouds.foldlM
      (tickCloudStep 0 halfRand W5.clouds.length W5.planetId)
      (initTickCloudsState W5.store W5 0) = some stW5b := by
    rw [h1, hstep]
    simp only [Option.some_bind]
  exact (tickClouds_eval clusterStore_W5 hfold).trans (by rfl)

theorem tickWorld_W5 : tickWorld W5 0 halfRand 0 = some (W5p, 2) := by
  have h := tickWorld_eval (by rw [postKin_W5]; exact tickClouds_W5)
    (rfl : W5p.plants = [])
  exact h.trans (by rfl)

theorem C5_rain_threshold_and_irreversible_witness :
    collectiveMass W5.store 2 > rainThreshold ∧
    (W5p.store 2).state = CloudState.raining :=
  ⟨collectiveMass_W5_2,
   (C5_rain_threshold_and_irreversible.1 W5 0 halfRand 0 (W5p, 2) W5.store [] [] 2
     (initTickCloudsState W5.store (postKin W5 0) 0) tickWorld_W5
     (by rw [postKin_W5]; exact clusterStore_W5) rfl rfl
     (show collectiveMass W5.store 2 > rainThreshold from collectiveMass_W5_2)
     (by decide)).1⟩

/-! ## Concrete instances for the rotation-range and rain-pass claims -/

theorem Wempty_nonnegRot : ∀ i, NonnegRot (Wempty.store i) := by
  intro i
  show NonnegRot (if i = 0 then sunW else planetW)
  by_cases h0 : i = 0
  · rw [if_pos h0]
    refine ⟨le_refl 0, le_refl 0, ?_⟩
    intro orb horb
    have hso : sunW.orbit =
        some ⟨0, Real.pi * 2 / 2000, 1, Shape.ellipse 175 200⟩ := rfl
    rw [hso] at horb
    have h2 : orb = (⟨0, Real.pi * 2 / 2000, 1, Shape.ellipse 175 200⟩ : Orbit) := by
      symm
      simpa using horb
    subst h2
    exact ⟨le_refl 0, by show (0 : ℝ) ≤ Real.pi * 2 / 2000; positivity⟩
  · rw [if_neg h0]
    exact ⟨le_refl 0, by show (0 : ℝ) ≤ Real.pi * 2 / 10000; positivity,
      fun orb horb => absurd horb (by simp [planetW])⟩

theorem C6_rotation_range_witness : RotFacts ((Wempty, 0).1.store 0) :=
  C6_rotation_range Wempty 0 halfRand 0 (Wempty, 0) (tickWorld_Wempty halfRand)
    (le_refl 0)
    (fun n => ⟨by norm_num [halfRand], by norm_num [halfRand]⟩)
    Wempty_nonnegRot
    (fun x hx => absurd hx (List.not_mem_nil x))
    (by decide) (by decide) 0 (List.mem_cons_self _ _)

/-- A rain particle on the x-axis, 5 away from the planet center. -/
def rainP : Rain := { location := (5, 0), velocity := (0, 0) }

def Wrain : World := { Wempty with rain := [rainP] }

theorem Wrain_kinFixed : ∀ i ∈ kinematicsOrder Wrain, KinFixed Wrain.store i :=
  Wempty_kinFixed

theorem tickClouds_Wrain :
    tickClouds (postKin Wrain 0) 0 halfRand 0 = some (Wrain, 0) := by
  rw [postKin_fixed Wrain_kinFixed]
  rw [tickClouds_nil Wrain 0 halfRand 0 rfl]
  rfl

theorem Wrain_target : ∀ i ∈ kinematicsOrder Wrain, ∀ orb,
    (Wrain.store i).orbit = some orb → (Wrain.store orb.target).orbit = none := by
  intro i hi orb horb
  fin_cases hi
  · have hso : (Wrain.store Wrain.sunId).orbit =
        some ⟨0, Real.pi * 2 / 2000, 1, Shape.ellipse 175 200⟩ := rfl
    rw [hso] at horb
    have h2 : orb = (⟨0, Real.pi * 2 / 2000, 1, Shape.ellipse 175 200⟩ : Orbit) := by
      symm
      simpa using horb
    subst h2
    rfl
  · have hp : (Wrain.store Wrain.planetId).orbit = none := rfl
    rw [hp] at horb
    exact absurd horb (by simp)

theorem Wrain_far : ∀ r ∈ Wrain.rain, (1 : ℝ) < vectorMath.magnitude
    (vectorMath.subtract r.location ((Wrain.store Wrain.planetId).location)) := by
  intro r hr
  have h2 : r = rainP := List.mem_singleton.mp hr
  subst h2
  rw [show rainP.location = ((5 : ℝ), 0) from rfl,
    show (Wrain.store Wrain.planetId).location = ((0 : ℝ), 0) from rfl,
    mag_sub_x_of_le (by norm_num)]
  norm_num

theorem C7_rain_pass_guarded_witness :
    vectorMath.subtract ((Wrain.store Wrain.planetId).location) rainP.location ≠
      (0, 0) :=
  C7_rain_pass_guarded Wrain 0 halfRand 0 Wrain 0 tickClouds_Wrain 1 one_pos
    rfl
    (fun x hx => absurd hx (List.not_mem_nil x))
    (by decide)
    (fun n => ⟨by norm_num [halfRand], by norm_num [halfRand]⟩)
    Wrain_far
    Wrain_target
    (fun c hc => absurd hc (List.not_mem_nil c))
    (fun c hc => absurd hc (List.not_mem_nil c))
    rainP (List.mem_cons_self _ _)

/-! ## C2: the clustering threshold of the code vs the spec -/

/-- The clustering inner iteration as the SPEC words it: identical to
clusterPair except that the second operand of the distance threshold,
otherCloudShape, is read from the OTHER cloud's silhouette
(min(cloud.shape) + min(otherCloud.shape)/4).  This definition follows
the claim's sentence and is compared against clusterPair, which
transcribes the code (where line 345 reads cloud.shape for both). -/
def specClusterPair (store : Nat → Obj) (c other : Nat) : Option (Nat → Obj) :=
  match (store c).shape with
  | Shape.circle _ => none
  | Shape.ellipse s1 s2 =>
    match (store other).shape with
    | Shape.circle _ => none
    | Shape.ellipse t1 t2 =>
      if c = other then some store
      else
        let distance := vectorMath.magnitude
          (vectorMath.subtract (store other).location (store c).location)
        if distance < min s1 s2 + min t1 t2 / 4 then
          let store1 := setObj store other
            { store other with
              orbit := ((store other).orbit).map (fun ob =>
                { ob with rotationalVelocity := (orbitOf (store c)).rotationalVelocity })
              friends := insert c (store other).friends }
          some (setObj store1 c
            { store1 c with friends := insert other (store1 c).friends })
        else some store

theorem specClusterPair_noop {store : Nat → Obj} {c d : Nat} {a b t1 t2 : ℝ}
    (hsh : (store c).shape = Shape.ellipse a b)
    (hsh2 : (store d).shape = Shape.ellipse t1 t2) (hne : c ≠ d)
    (hfar : ¬ vectorMath.magnitude (vectorMath.subtract (store d).location
      (store c).location) < min a b + min t1 t2 / 4) :
    specClusterPair store c d = some store := by
  unfold specClusterPair
  simp only [hsh, hsh2]
  rw [if_neg hne, if_neg hfar]

/-- A small cloud: silhouette (0.6, 0.4), 7 from the planet center. -/
def cloudA : Obj :=
  { location := (7, 0), rotation := 0, rotationalVelocity := 0,
    shape := Shape.ellipse 0.6 0.4,
    orbit := some ⟨0, Real.pi * 2 / 900, 1, Shape.circle 7⟩,
    mass := 5, state := CloudState.floating, friends := ∅ }

/-- A large cloud: silhouette (8, 8), 16 from the planet center, hence 9
from the small cloud. -/
def cloudB : Obj :=
  { location := (16, 0), rotation := 0, rotationalVelocity := 0,
    shape := Shape.ellipse 8 8,
    orbit := some ⟨0, Real.pi * 2 / 900, 1, Shape.circle 16⟩,
    mass := 5, state := CloudState.floating, friends := ∅ }

def Wc2 : World :=
  { store := mkStore cloudA cloudB, sunId := 0, planetId := 1,
    clouds := [2, 3], rain := [], ground := 0, plants := [], nextId := 4 }

/-- The heap after the (large, small) visit of the code's clustering:
the small cloud gains the friend 3 and the large cloud's orbital
angular velocity. -/
def store1c2 : Nat → Obj :=
  setObj Wc2.store 2
    { Wc2.store 2 with
      orbit := ((Wc2.store 2).orbit).map (fun ob =>
        { ob with rotationalVelocity := (orbitOf (Wc2.store 3)).rotationalVelocity })
      friends := insert 3 (Wc2.store 2).friends }

def store2c2 : Nat → Obj :=
  setObj store1c2 3 { store1c2 3 with friends := insert 2 (store1c2 3).friends }

theorem Wc2_dist_32 : vectorMath.magnitude
    (vectorMath.subtract (Wc2.store 2).location (Wc2.store 3).location) = 9 := by
  rw [show (Wc2.store 2).location = ((7 : ℝ), 0) from rfl,
    show (Wc2.store 3).location = ((16 : ℝ), 0) from rfl,
    mag_sub_x_of_ge (by norm_num)]
  norm_num

theorem Wc2_dist_23 : vectorMath.magnitude
    (vectorMath.subtract (Wc2.store 3).location (Wc2.store 2).location) = 9 := by
  rw [show (Wc2.store 3).location = ((16 : ℝ), 0) from rfl,
    show (Wc2.store 2).location = ((7 : ℝ), 0) from rfl,
    mag_sub_x_of_le (by norm_num)]
  norm_num

/-- C2 (code bug, tickWorld.tsx line 345): on the (large, small) visit the
code compares the distance 9 against min(8,8) + min(8,8)/4 = 10 — the
local otherCloudShape is assigned cloud.shape — and makes the pair mutual
friends, although the spec's threshold min(cloud.shape) +
min(otherCloud.shape)/4 rejects the pair in both orientations (8.1 and
2.4 against distance 9), as does the code's own check in the (small,
large) orientation (0.5 against 9). -/
theorem C2_threshold_uses_first_cloud_shape :
    clusterPair Wc2.store 3 2 = some store2c2 ∧
    3 ∈ (store2c2 2).friends ∧ 2 ∈ (store2c2 3).friends ∧
    clusterPair Wc2.store 2 3 = some Wc2.store ∧
    specClusterPair Wc2.store 3 2 = some Wc2.store ∧
    specClusterPair Wc2.store 2 3 = some Wc2.store ∧
    (Wc2.store 2).friends = ∅ ∧ (Wc2.store 3).friends = ∅ := by
  have hshA : (Wc2.store 2).shape = Shape.ellipse 0.6 0.4 := rfl
  have hshB : (Wc2.store 3).shape = Shape.ellipse 8 8 := rfl
  refine ⟨?_, ?_, ?_, ?_, ?_, ?_, rfl, rfl⟩
  · unfold clusterPair
    simp only [hshB]
    rw [if_neg (by decide : ¬ (3 : Nat) = 2),
      if_pos (by rw [Wc2_dist_32, min_self]; norm_num)]
    rfl
  · have h2 : store2c2 2 = store1c2 2 := by
      unfold store2c2 setObj
      rw [Function.update_noteq (by decide : (2 : Nat) ≠ 3)]
    have h3 : store1c2 2 =
        { Wc2.store 2 with
          orbit := ((Wc2.store 2).orbit).map (fun ob =>
            { ob with
              rotationalVelocity := (orbitOf (Wc2.store 3)).rotationalVelocity })
          friends := insert 3 (Wc2.store 2).friends } := by
      unfold store1c2 setObj
      rw [Function.update_same]
    rw [h2, h3]
    exact Finset.mem_insert_self 3 _
  · have h2 : store2c2 3 = { store1c2 3 with
        friends := insert 2 (store1c2 3).friends } := by
      unfold store2c2 setObj
      rw [Function.update_same]
    rw [h2]
    exact Finset.mem_insert_self 2 _
  · exact clusterPair_noop hshA (by decide)
      (by rw [Wc2_dist_23, min_point_six]; norm_num)
  · exact specClusterPair_noop hshB hshA (by decide)
      (by rw [Wc2_dist_32, min_self, min_point_six]; norm_num)
  · exact specClusterPair_noop hshA hshB (by decide)
      (by rw [Wc2_dist_23, min_point_six, min_self]; norm_num)

end WorldSim
